import Mathlib

/-!
Verification development for the docker-mcp-extension server (src/src/index.ts).

The TypeScript source is shallowly embedded: JS strings become `List Char`,
the JS regular expressions used by the source (literals, character classes,
greedy `+`/`*`/`?` over classes, alternation of literals, optional groups and
capturing groups — the only constructs the source uses) become terms of an
explicit `RE` type matched by a backtracking CPS matcher `mrun` that mirrors
JS leftmost-match/greedy/first-alternative semantics, the external `docker`
CLI becomes an oracle `Env : Str → ExecOut`, and each MCP tool handler becomes
a total function returning its response together with the trace of commands it
passed to `executeDockerCommand`.  `\s` is modelled by the ASCII whitespace
characters (the inputs of interest are ASCII).
-/

set_option maxRecDepth 20000

namespace DockerMCP

/-- JS strings are modelled as lists of characters. -/
abbrev Str := List Char

/-- ASCII model of the JS `\s` class (space, tab, LF, VT, FF, CR). -/
def jsWs (c : Char) : Bool := c = ' ' || (9 ≤ c.toNat && c.toNat ≤ 13)

/-- `String.prototype.toLowerCase` (ASCII). -/
def lowerStr (s : Str) : Str := s.map Char.toLower

/-- `String.prototype.trim`: whitespace stripped from both ends. -/
def trimStr (s : Str) : Str :=
  ((s.dropWhile jsWs).reverse.dropWhile jsWs).reverse

/-- `isPre p s` is true when `p` is a prefix of `s` (JS `startsWith`). -/
def isPre : Str → Str → Bool
  | [], _ => true
  | _ :: _, [] => false
  | p :: ps, c :: cs => p = c && isPre ps cs

/-- JS `String.prototype.includes`: `pat` occurs somewhere in `s`. -/
def containsSub : Str → Str → Bool
  | s, pat =>
    if isPre pat s then true
    else match s with
      | [] => false
      | _ :: r => containsSub r pat

/-- JS `a || b` on strings: the empty string is falsy. -/
def jsOrS (a b : Str) : Str := if a = [] then b else a

/-- JS `a || b` where `a` is a possibly-undefined / possibly-null string. -/
def jsOrOpt (a : Option Str) (b : Str) : Str :=
  match a with
  | some t => if t = [] then b else t
  | none => b

/-- Truthiness of a `string | null | undefined` value. -/
def jsTruthy (a : Option Str) : Bool :=
  match a with
  | some t => t ≠ []
  | none => false

/-- The character class `[a-zA-Z0-9_-]`. -/
def nameC (c : Char) : Bool := c.isAlphanum || c = '_' || c = '-'

/-- The character class `[a-zA-Z0-9/_.-]`. -/
def imageC (c : Char) : Bool := c.isAlphanum || c = '/' || c = '_' || c = '.' || c = '-'

/-- The character class `[a-zA-Z0-9._-]`. -/
def tagC (c : Char) : Bool := c.isAlphanum || c = '.' || c = '_' || c = '-'

/-- The character class `\d`. -/
def digC (c : Char) : Bool := c.isDigit

/-- The character class `[^\s]`. -/
def nonWs (c : Char) : Bool := !(jsWs c)

/-- The character class `[:\s]`. -/
def colonWs (c : Char) : Bool := c = ':' || jsWs c

/-- Regular expressions as used by the source: string literals, character
classes, greedy `+`/`*` over a class, concatenation, alternation, greedy `?`,
and numbered capturing groups (non-capturing `(?:...)` groups are represented
by the bare subexpression). -/
inductive RE where
  | eps : RE
  | str : Str → RE
  | cls : (Char → Bool) → RE
  | plus : (Char → Bool) → RE
  | star : (Char → Bool) → RE
  | cat : RE → RE → RE
  | alt : RE → RE → RE
  | opt : RE → RE
  | grp : Nat → RE → RE

/-- Capture environment: group index ↦ captured text. -/
abbrev Caps := List (Nat × Str)

/-- Greedy Kleene iteration of a character class in CPS: consume as many
`p`-characters as possible, backtracking one at a time into `k`. -/
def starGreedy (p : Char → Bool) : Str → (Str → Option (Str × Caps)) →
    Option (Str × Caps)
  | [], k => k []
  | c :: rest, k =>
    if p c then
      match starGreedy p rest k with
      | some r => some r
      | none => k (c :: rest)
    else k (c :: rest)

/-- Backtracking matcher in CPS, mirroring JS semantics: alternatives are
tried left to right, `?` and `+`/`*` are greedy, and a capturing group records
the text its body consumed. -/
def mrun : RE → Str → Caps → (Str → Caps → Option (Str × Caps)) →
    Option (Str × Caps)
  | .eps, s, m, k => k s m
  | .str l, s, m, k => if isPre l s then k (s.drop l.length) m else none
  | .cls p, s, m, k =>
    match s with
    | [] => none
    | c :: r => if p c then k r m else none
  | .plus p, s, m, k =>
    match s with
    | [] => none
    | c :: r => if p c then starGreedy p r (fun s' => k s' m) else none
  | .star p, s, m, k => starGreedy p s (fun s' => k s' m)
  | .cat a b, s, m, k => mrun a s m (fun s' m' => mrun b s' m' k)
  | .alt a b, s, m, k =>
    match mrun a s m k with
    | some r => some r
    | none => mrun b s m k
  | .opt a, s, m, k =>
    match mrun a s m k with
    | some r => some r
    | none => k s m
  | .grp i a, s, m, k =>
    mrun a s m (fun s' m' => k s' ((i, s.take (s.length - s'.length)) :: m'))

/-- Try to match `re` at the very start of `s`; on success return the
unconsumed suffix and the captures. -/
def matchHere (re : RE) (s : Str) : Option (Str × Caps) :=
  mrun re s [] (fun s' m => some (s', m))

/-- Scan left to right for the leftmost match (JS unanchored `match`),
returning (text before the match, matched text, text after, captures). -/
def searchSplitAux (re : RE) : Str → Str → Option (Str × Str × Str × Caps)
  | acc, s =>
    match matchHere re s with
    | some (rest, m) =>
      some (acc.reverse, s.take (s.length - rest.length), rest, m)
    | none =>
      match s with
      | [] => none
      | c :: r => searchSplitAux re (c :: acc) r

/-- Leftmost unanchored match of `re` in `s`. -/
def searchSplit (re : RE) (s : Str) : Option (Str × Str × Str × Caps) :=
  searchSplitAux re [] s

/-- JS `s.match(re)` reduced to its capture array (`none` = no match). -/
def jsMatch (re : RE) (s : Str) : Option Caps :=
  (searchSplit re s).map (fun x => x.2.2.2)

/-- `m[i]` for a JS match object: the text of capture group `i`, if any. -/
def getCap (m : Caps) (i : Nat) : Option Str :=
  (m.find? (fun p => p.1 = i)).map (fun p => p.2)

/-- Interpolation `${m[i]}`: an absent group prints as "undefined". -/
def capStr (m : Caps) (i : Nat) : Str :=
  (getCap m i).getD (("undefined").toList)

/-- Truthiness of `s.match(re)` used in `if` conditions. -/
def jsTest (re : RE) (s : Str) : Bool := (jsMatch re s).isSome

end DockerMCP

namespace DockerMCP

/-- Literal regex fragment. -/
def lit (s : String) : RE := .str s.toList

/-- Left-to-right alternation `(a|b|...)` (JS tries alternatives in order). -/
def altL : List RE → RE
  | [] => .eps
  | [r] => r
  | r :: rest => .alt r (altL rest)

/-- `\s+`. -/
def wsP : RE := .plus jsWs

/-- `s?` (an optional trailing letter s). -/
def sOpt : RE := .opt (lit ("s"))

/- === Regexes of the parseDockerCommand cascade (src/src/index.ts 393-723).
`re..T` is the regex used in the `if` test; `re..E` is the regex used for the
second, extracting `input.match(...)` call where the source makes one (those
replace some capturing groups by non-capturing `(?:...)` groups). === -/

/-- `(list|show|display|get)\s+(all\s+)?(containers?|running|stopped)` -/
def reListContainers : RE :=
  .cat (.grp 1 (altL [lit ("list"), lit ("show"), lit ("display"), lit ("get")]))
    (.cat wsP (.cat (.opt (.grp 2 (.cat (lit ("all")) wsP)))
      (.grp 3 (altL [.cat (lit ("container")) sOpt, lit ("running"), lit ("stopped")]))))

/-- `(what|which)\s+containers?\s+are\s+(running|active)` -/
def reWhichRunning : RE :=
  .cat (.grp 1 (altL [lit ("what"), lit ("which")]))
    (.cat wsP (.cat (lit ("container")) (.cat sOpt (.cat wsP
      (.cat (lit ("are")) (.cat wsP (.grp 2 (altL [lit ("running"), lit ("active")]))))))))

/-- Alternation `(start|run|launch)`. -/
def altStartRunLaunch : RE := altL [lit ("start"), lit ("run"), lit ("launch")]

/-- `(container\s+)` fragment. -/
def containerWs : RE := .cat (lit ("container")) wsP

/-- `(start|run|launch)\s+(container\s+)?([a-zA-Z0-9_-]+)` -/
def reStartT : RE :=
  .cat (.grp 1 altStartRunLaunch)
    (.cat wsP (.cat (.opt (.grp 2 containerWs)) (.grp 3 (.plus nameC))))

/-- `(start|run|launch)\s+(?:container\s+)?([a-zA-Z0-9_-]+)` -/
def reStartE : RE :=
  .cat (.grp 1 altStartRunLaunch)
    (.cat wsP (.cat (.opt containerWs) (.grp 2 (.plus nameC))))

/-- Alternation `(stop|halt|kill)`. -/
def altStopHaltKill : RE := altL [lit ("stop"), lit ("halt"), lit ("kill")]

/-- `(stop|halt|kill)\s+(container\s+)?([a-zA-Z0-9_-]+)` -/
def reStopT : RE :=
  .cat (.grp 1 altStopHaltKill)
    (.cat wsP (.cat (.opt (.grp 2 containerWs)) (.grp 3 (.plus nameC))))

/-- `(stop|halt|kill)\s+(?:container\s+)?([a-zA-Z0-9_-]+)` -/
def reStopE : RE :=
  .cat (.grp 1 altStopHaltKill)
    (.cat wsP (.cat (.opt containerWs) (.grp 2 (.plus nameC))))

/-- Alternation `(restart|reboot)`. -/
def altRestartReboot : RE := altL [lit ("restart"), lit ("reboot")]

/-- `(restart|reboot)\s+(container\s+)?([a-zA-Z0-9_-]+)` -/
def reRestartT : RE :=
  .cat (.grp 1 altRestartReboot)
    (.cat wsP (.cat (.opt (.grp 2 containerWs)) (.grp 3 (.plus nameC))))

/-- `(restart|reboot)\s+(?:container\s+)?([a-zA-Z0-9_-]+)` -/
def reRestartE : RE :=
  .cat (.grp 1 altRestartReboot)
    (.cat wsP (.cat (.opt containerWs) (.grp 2 (.plus nameC))))

/-- Alternation `(remove|delete|rm)`. -/
def altRemoveDeleteRm : RE := altL [lit ("remove"), lit ("delete"), lit ("rm")]

/-- `(remove|delete|rm)\s+(container\s+)?([a-zA-Z0-9_-]+)` -/
def reRemoveT : RE :=
  .cat (.grp 1 altRemoveDeleteRm)
    (.cat wsP (.cat (.opt (.grp 2 containerWs)) (.grp 3 (.plus nameC))))

/-- `(remove|delete|rm)\s+(?:container\s+)?([a-zA-Z0-9_-]+)` -/
def reRemoveE : RE :=
  .cat (.grp 1 altRemoveDeleteRm)
    (.cat wsP (.cat (.opt containerWs) (.grp 2 (.plus nameC))))

/-- Alternation `(inspect|examine|details?)`. -/
def altInspectExamineDetail : RE :=
  altL [lit ("inspect"), lit ("examine"), .cat (lit ("detail")) sOpt]

/-- `(inspect|examine|details?)\s+(container\s+)?([a-zA-Z0-9_-]+)` -/
def reInspectT : RE :=
  .cat (.grp 1 altInspectExamineDetail)
    (.cat wsP (.cat (.opt (.grp 2 containerWs)) (.grp 3 (.plus nameC))))

/-- `(inspect|examine|details?)\s+(?:container\s+)?([a-zA-Z0-9_-]+)` -/
def reInspectE : RE :=
  .cat (.grp 1 altInspectExamineDetail)
    (.cat wsP (.cat (.opt containerWs) (.grp 2 (.plus nameC))))

/-- Alternation `(logs?|output)`. -/
def altLogsOutput : RE := altL [.cat (lit ("log")) sOpt, lit ("output")]

/-- `(from\s+)` fragment. -/
def fromWs : RE := .cat (lit ("from")) wsP

/-- `(logs?|output)\s+(from\s+)?(container\s+)?([a-zA-Z0-9_-]+)` -/
def reLogsT : RE :=
  .cat (.grp 1 altLogsOutput)
    (.cat wsP (.cat (.opt (.grp 2 fromWs))
      (.cat (.opt (.grp 3 containerWs)) (.grp 4 (.plus nameC)))))

/-- `(logs?|output)\s+(?:from\s+)?(?:container\s+)?([a-zA-Z0-9_-]+)` -/
def reLogsE : RE :=
  .cat (.grp 1 altLogsOutput)
    (.cat wsP (.cat (.opt fromWs) (.cat (.opt containerWs) (.grp 2 (.plus nameC)))))

/-- `(\d+)\s+lines?` -/
def reLines : RE :=
  .cat (.grp 1 (.plus digC)) (.cat wsP (.cat (lit ("line")) sOpt))

/-- Alternation `(exec|execute|run)`. -/
def altExecExecuteRun : RE := altL [lit ("exec"), lit ("execute"), lit ("run")]

/-- Alternation `(in|into)`. -/
def altInInto : RE := altL [lit ("in"), lit ("into")]

/-- `(exec|execute|run)\s+(in|into)\s+(container\s+)?([a-zA-Z0-9_-]+)` -/
def reExecT : RE :=
  .cat (.grp 1 altExecExecuteRun)
    (.cat wsP (.cat (.grp 2 altInInto)
      (.cat wsP (.cat (.opt (.grp 3 containerWs)) (.grp 4 (.plus nameC))))))

/-- `(exec|execute|run)\s+(?:in|into)\s+(?:container\s+)?([a-zA-Z0-9_-]+)` -/
def reExecE : RE :=
  .cat (.grp 1 altExecExecuteRun)
    (.cat wsP (.cat altInInto
      (.cat wsP (.cat (.opt containerWs) (.grp 2 (.plus nameC))))))

end DockerMCP

namespace DockerMCP

/-- `(list|show|display|get)\s+(all\s+)?(images?|repos?|repositories)` -/
def reListImages : RE :=
  .cat (.grp 1 (altL [lit ("list"), lit ("show"), lit ("display"), lit ("get")]))
    (.cat wsP (.cat (.opt (.grp 2 (.cat (lit ("all")) wsP)))
      (.grp 3 (altL [.cat (lit ("image")) sOpt, .cat (lit ("repo")) sOpt,
        lit ("repositories")]))))

/-- Alternation `(pull|download|fetch)`. -/
def altPullDownloadFetch : RE := altL [lit ("pull"), lit ("download"), lit ("fetch")]

/-- `(image\s+)` fragment. -/
def imageWs : RE := .cat (lit ("image")) wsP

/-- `(pull|download|fetch)\s+(image\s+)?([a-zA-Z0-9/_.-]+)(:([a-zA-Z0-9._-]+))?` -/
def rePullT : RE :=
  .cat (.grp 1 altPullDownloadFetch)
    (.cat wsP (.cat (.opt (.grp 2 imageWs))
      (.cat (.grp 3 (.plus imageC))
        (.opt (.grp 4 (.cat (lit (":")) (.grp 5 (.plus tagC))))))))

/-- `(pull|download|fetch)\s+(?:image\s+)?([a-zA-Z0-9/_.-]+)(?::([a-zA-Z0-9._-]+))?` -/
def rePullE : RE :=
  .cat (.grp 1 altPullDownloadFetch)
    (.cat wsP (.cat (.opt imageWs)
      (.cat (.grp 2 (.plus imageC))
        (.opt (.cat (lit (":")) (.grp 3 (.plus tagC)))))))

/-- Alternation `(push|upload)`. -/
def altPushUpload : RE := altL [lit ("push"), lit ("upload")]

/-- `(push|upload)\s+(image\s+)?([a-zA-Z0-9/_.-]+)(:([a-zA-Z0-9._-]+))?` -/
def rePushT : RE :=
  .cat (.grp 1 altPushUpload)
    (.cat wsP (.cat (.opt (.grp 2 imageWs))
      (.cat (.grp 3 (.plus imageC))
        (.opt (.grp 4 (.cat (lit (":")) (.grp 5 (.plus tagC))))))))

/-- `(push|upload)\s+(?:image\s+)?([a-zA-Z0-9/_.-]+)(?::([a-zA-Z0-9._-]+))?` -/
def rePushE : RE :=
  .cat (.grp 1 altPushUpload)
    (.cat wsP (.cat (.opt imageWs)
      (.cat (.grp 2 (.plus imageC))
        (.opt (.cat (lit (":")) (.grp 3 (.plus tagC)))))))

/-- Alternation `(build|create)`. -/
def altBuildCreate : RE := altL [lit ("build"), lit ("create")]

/-- `(build|create)\s+(image\s+)?([a-zA-Z0-9/_.-]+)` -/
def reBuildT : RE :=
  .cat (.grp 1 altBuildCreate)
    (.cat wsP (.cat (.opt (.grp 2 imageWs)) (.grp 3 (.plus imageC))))

/-- `(build|create)\s+(?:image\s+)?([a-zA-Z0-9/_.-]+)` -/
def reBuildE : RE :=
  .cat (.grp 1 altBuildCreate)
    (.cat wsP (.cat (.opt imageWs) (.grp 2 (.plus imageC))))

/-- `dockerfile[:\s]+([^\s]+)` -/
def reDockerfile : RE :=
  .cat (lit ("dockerfile")) (.cat (.plus colonWs) (.grp 1 (.plus nonWs)))

/-- `(?:from|in)\s+([^\s]+)` -/
def reFromIn : RE :=
  .cat (altL [lit ("from"), lit ("in")]) (.cat wsP (.grp 1 (.plus nonWs)))

/-- `(remove|delete|rm)\s+(image\s+)?([a-zA-Z0-9/_.-]+)` -/
def reRmiT : RE :=
  .cat (.grp 1 altRemoveDeleteRm)
    (.cat wsP (.cat (.opt (.grp 2 imageWs)) (.grp 3 (.plus imageC))))

/-- `(remove|delete|rm)\s+(?:image\s+)?([a-zA-Z0-9/_.-]+)` -/
def reRmiE : RE :=
  .cat (.grp 1 altRemoveDeleteRm)
    (.cat wsP (.cat (.opt imageWs) (.grp 2 (.plus imageC))))

/-- Alternation `(tag|label)`. -/
def altTagLabel : RE := altL [lit ("tag"), lit ("label")]

/-- `(as\s+)` fragment. -/
def asWs : RE := .cat (lit ("as")) wsP

/-- `(tag|label)\s+(image\s+)?([a-zA-Z0-9/_.-]+)\s+(as\s+)?([a-zA-Z0-9/_.-]+)` -/
def reTagT : RE :=
  .cat (.grp 1 altTagLabel)
    (.cat wsP (.cat (.opt (.grp 2 imageWs))
      (.cat (.grp 3 (.plus imageC))
        (.cat wsP (.cat (.opt (.grp 4 asWs)) (.grp 5 (.plus imageC)))))))

/-- `(tag|label)\s+(?:image\s+)?([a-zA-Z0-9/_.-]+)\s+(?:as\s+)?([a-zA-Z0-9/_.-]+)` -/
def reTagE : RE :=
  .cat (.grp 1 altTagLabel)
    (.cat wsP (.cat (.opt imageWs)
      (.cat (.grp 2 (.plus imageC))
        (.cat wsP (.cat (.opt asWs) (.grp 3 (.plus imageC)))))))

/-- `(list|show|display)\s+(all\s+)?(volumes?|storage)` -/
def reListVolumes : RE :=
  .cat (.grp 1 (altL [lit ("list"), lit ("show"), lit ("display")]))
    (.cat wsP (.cat (.opt (.grp 2 (.cat (lit ("all")) wsP)))
      (.grp 3 (altL [.cat (lit ("volume")) sOpt, lit ("storage")]))))

/-- Alternation `(create|make)`. -/
def altCreateMake : RE := altL [lit ("create"), lit ("make")]

/-- `(volume\s+)` fragment. -/
def volumeWs : RE := .cat (lit ("volume")) wsP

/-- `(create|make)\s+(volume\s+)?([a-zA-Z0-9_-]+)` -/
def reCreateVolumeT : RE :=
  .cat (.grp 1 altCreateMake)
    (.cat wsP (.cat (.opt (.grp 2 volumeWs)) (.grp 3 (.plus nameC))))

/-- `(create|make)\s+(?:volume\s+)?([a-zA-Z0-9_-]+)` -/
def reCreateVolumeE : RE :=
  .cat (.grp 1 altCreateMake)
    (.cat wsP (.cat (.opt volumeWs) (.grp 2 (.plus nameC))))

/-- Alternation `(remove|delete)`. -/
def altRemoveDelete : RE := altL [lit ("remove"), lit ("delete")]

/-- `(remove|delete)\s+(volume\s+)?([a-zA-Z0-9_-]+)` -/
def reRemoveVolumeT : RE :=
  .cat (.grp 1 altRemoveDelete)
    (.cat wsP (.cat (.opt (.grp 2 volumeWs)) (.grp 3 (.plus nameC))))

/-- `(remove|delete)\s+(?:volume\s+)?([a-zA-Z0-9_-]+)` -/
def reRemoveVolumeE : RE :=
  .cat (.grp 1 altRemoveDelete)
    (.cat wsP (.cat (.opt volumeWs) (.grp 2 (.plus nameC))))

/-- Alternation `(inspect|examine)`. -/
def altInspectExamine : RE := altL [lit ("inspect"), lit ("examine")]

/-- `(inspect|examine)\s+(volume\s+)?([a-zA-Z0-9_-]+)` -/
def reInspectVolumeT : RE :=
  .cat (.grp 1 altInspectExamine)
    (.cat wsP (.cat (.opt (.grp 2 volumeWs)) (.grp 3 (.plus nameC))))

/-- `(inspect|examine)\s+(?:volume\s+)?([a-zA-Z0-9_-]+)` -/
def reInspectVolumeE : RE :=
  .cat (.grp 1 altInspectExamine)
    (.cat wsP (.cat (.opt volumeWs) (.grp 2 (.plus nameC))))

end DockerMCP

namespace DockerMCP

/-- `(list|show|display)\s+(all\s+)?(networks?|networking)` -/
def reListNetworks : RE :=
  .cat (.grp 1 (altL [lit ("list"), lit ("show"), lit ("display")]))
    (.cat wsP (.cat (.opt (.grp 2 (.cat (lit ("all")) wsP)))
      (.grp 3 (altL [.cat (lit ("network")) sOpt, lit ("networking")]))))

/-- `(network\s+)` fragment. -/
def networkWs : RE := .cat (lit ("network")) wsP

/-- `(create|make)\s+(network\s+)?([a-zA-Z0-9_-]+)` -/
def reCreateNetworkT : RE :=
  .cat (.grp 1 altCreateMake)
    (.cat wsP (.cat (.opt (.grp 2 networkWs)) (.grp 3 (.plus nameC))))

/-- `(create|make)\s+(?:network\s+)?([a-zA-Z0-9_-]+)` -/
def reCreateNetworkE : RE :=
  .cat (.grp 1 altCreateMake)
    (.cat wsP (.cat (.opt networkWs) (.grp 2 (.plus nameC))))

/-- `(remove|delete)\s+(network\s+)?([a-zA-Z0-9_-]+)` -/
def reRemoveNetworkT : RE :=
  .cat (.grp 1 altRemoveDelete)
    (.cat wsP (.cat (.opt (.grp 2 networkWs)) (.grp 3 (.plus nameC))))

/-- `(remove|delete)\s+(?:network\s+)?([a-zA-Z0-9_-]+)` -/
def reRemoveNetworkE : RE :=
  .cat (.grp 1 altRemoveDelete)
    (.cat wsP (.cat (.opt networkWs) (.grp 2 (.plus nameC))))

/-- Alternation `(connect|attach)`. -/
def altConnectAttach : RE := altL [lit ("connect"), lit ("attach")]

/-- `(connect|attach)\s+([a-zA-Z0-9_-]+)\s+(to\s+)?([a-zA-Z0-9_-]+)` -/
def reConnectT : RE :=
  .cat (.grp 1 altConnectAttach)
    (.cat wsP (.cat (.grp 2 (.plus nameC))
      (.cat wsP (.cat (.opt (.grp 3 (.cat (lit ("to")) wsP))) (.grp 4 (.plus nameC))))))

/-- `(connect|attach)\s+([a-zA-Z0-9_-]+)\s+(?:to\s+)?([a-zA-Z0-9_-]+)` -/
def reConnectE : RE :=
  .cat (.grp 1 altConnectAttach)
    (.cat wsP (.cat (.grp 2 (.plus nameC))
      (.cat wsP (.cat (.opt (.cat (lit ("to")) wsP)) (.grp 3 (.plus nameC))))))

/-- Alternation `(disconnect|detach)`. -/
def altDisconnectDetach : RE := altL [lit ("disconnect"), lit ("detach")]

/-- `(disconnect|detach)\s+([a-zA-Z0-9_-]+)\s+(from\s+)?([a-zA-Z0-9_-]+)` -/
def reDisconnectT : RE :=
  .cat (.grp 1 altDisconnectDetach)
    (.cat wsP (.cat (.grp 2 (.plus nameC))
      (.cat wsP (.cat (.opt (.grp 3 fromWs)) (.grp 4 (.plus nameC))))))

/-- `(disconnect|detach)\s+([a-zA-Z0-9_-]+)\s+(?:from\s+)?([a-zA-Z0-9_-]+)` -/
def reDisconnectE : RE :=
  .cat (.grp 1 altDisconnectDetach)
    (.cat wsP (.cat (.grp 2 (.plus nameC))
      (.cat wsP (.cat (.opt fromWs) (.grp 3 (.plus nameC))))))

/-- `(system\s+)?(info|information|details)` -/
def reSystemInfo : RE :=
  .cat (.opt (.grp 1 (.cat (lit ("system")) wsP)))
    (.grp 2 (altL [lit ("info"), lit ("information"), lit ("details")]))

/-- `(version|ver)` -/
def reVersion : RE := .grp 1 (altL [lit ("version"), lit ("ver")])

/-- `(stats|statistics|status|monitor)` -/
def reStats : RE :=
  .grp 1 (altL [lit ("stats"), lit ("statistics"), lit ("status"), lit ("monitor")])

/-- `(disk\s+usage|space|storage\s+usage)` -/
def reDiskUsage : RE :=
  .grp 1 (altL [.cat (lit ("disk")) (.cat wsP (lit ("usage"))), lit ("space"),
    .cat (lit ("storage")) (.cat wsP (lit ("usage")))])

/-- `(clean\s*up?|prune|cleanup)` -/
def rePrune : RE :=
  .grp 1 (altL [.cat (lit ("clean")) (.cat (.star jsWs) (.cat (lit ("u")) (.opt (lit ("p"))))),
    lit ("prune"), lit ("cleanup")])

/-- `(compose\s+)?` fragment: an optional capture group 1. -/
def composeOpt : RE := .opt (.grp 1 (.cat (lit ("compose")) wsP))

/-- `(compose\s+)?(up|start|launch)` -/
def reComposeUp : RE :=
  .cat composeOpt (.grp 2 (altL [lit ("up"), lit ("start"), lit ("launch")]))

/-- `(compose\s+)?(down|stop|halt)` -/
def reComposeDown : RE :=
  .cat composeOpt (.grp 2 (altL [lit ("down"), lit ("stop"), lit ("halt")]))

/-- `(compose\s+)?(logs|output)` -/
def reComposeLogs : RE :=
  .cat composeOpt (.grp 2 (altL [lit ("logs"), lit ("output")]))

/-- `(compose\s+)?(ps|status|services)` -/
def reComposePs : RE :=
  .cat composeOpt (.grp 2 (altL [lit ("ps"), lit ("status"), lit ("services")]))

/-- `(compose\s+)?(restart|reboot)` -/
def reComposeRestart : RE :=
  .cat composeOpt (.grp 2 (altL [lit ("restart"), lit ("reboot")]))

/-- `(compose\s+)?(build|rebuild)` -/
def reComposeBuild : RE :=
  .cat composeOpt (.grp 2 (altL [lit ("build"), lit ("rebuild")]))

/-- `service\s+([a-zA-Z0-9_-]+)` -/
def reService : RE := .cat (lit ("service")) (.cat wsP (.grp 1 (.plus nameC)))

/-- `(?:from\s+|service\s+)([a-zA-Z0-9_-]+)` -/
def reFromService : RE :=
  .cat (altL [.cat (lit ("from")) wsP, .cat (lit ("service")) wsP])
    (.grp 1 (.plus nameC))

/-- Alternation `(search|find)`. -/
def altSearchFind : RE := altL [lit ("search"), lit ("find")]

/-- `(search|find)\s+(for\s+)?([a-zA-Z0-9/_.-]+)` -/
def reSearchT : RE :=
  .cat (.grp 1 altSearchFind)
    (.cat wsP (.cat (.opt (.grp 2 (.cat (lit ("for")) wsP))) (.grp 3 (.plus imageC))))

/-- `(search|find)\s+(?:for\s+)?([a-zA-Z0-9/_.-]+)` -/
def reSearchE : RE :=
  .cat (.grp 1 altSearchFind)
    (.cat wsP (.cat (.opt (.cat (lit ("for")) wsP)) (.grp 2 (.plus imageC))))

/-- `(copy|cp)\s+([^\s]+)\s+(from|to)\s+([a-zA-Z0-9_-]+)` (used for both the
test and the extraction). -/
def reCopy : RE :=
  .cat (.grp 1 (altL [lit ("copy"), lit ("cp")]))
    (.cat wsP (.cat (.grp 2 (.plus nonWs))
      (.cat wsP (.cat (.grp 3 (altL [lit ("from"), lit ("to")]))
        (.cat wsP (.grp 4 (.plus nameC)))))))

/-- `(port|ports)\s+(of\s+|for\s+)?([a-zA-Z0-9_-]+)` -/
def rePortT : RE :=
  .cat (.grp 1 (altL [lit ("port"), lit ("ports")]))
    (.cat wsP (.cat (.opt (.grp 2 (altL [.cat (lit ("of")) wsP, .cat (lit ("for")) wsP])))
      (.grp 3 (.plus nameC))))

/-- `(port|ports)\s+(?:of\s+|for\s+)?([a-zA-Z0-9_-]+)` -/
def rePortE : RE :=
  .cat (.grp 1 (altL [lit ("port"), lit ("ports")]))
    (.cat wsP (.cat (.opt (altL [.cat (lit ("of")) wsP, .cat (lit ("for")) wsP]))
      (.grp 2 (.plus nameC))))

/-- Alternation `(processes?|ps|top)`. -/
def altProcessesPsTop : RE :=
  altL [.cat (lit ("processe")) sOpt, lit ("ps"), lit ("top")]

/-- `(processes?|ps|top)\s+(in|inside)\s+([a-zA-Z0-9_-]+)` -/
def reTopT : RE :=
  .cat (.grp 1 altProcessesPsTop)
    (.cat wsP (.cat (.grp 2 (altL [lit ("in"), lit ("inside")]))
      (.cat wsP (.grp 3 (.plus nameC)))))

/-- `(processes?|ps|top)\s+(?:in|inside)\s+([a-zA-Z0-9_-]+)` -/
def reTopE : RE :=
  .cat (.grp 1 altProcessesPsTop)
    (.cat wsP (.cat (altL [lit ("in"), lit ("inside")])
      (.cat wsP (.grp 2 (.plus nameC)))))

/-- `login\s+(to\s+)?([a-zA-Z0-9._-]+)?` -/
def reLoginT : RE :=
  .cat (lit ("login"))
    (.cat wsP (.cat (.opt (.grp 1 (.cat (lit ("to")) wsP))) (.opt (.grp 2 (.plus tagC)))))

/-- `login\s+(?:to\s+)?([a-zA-Z0-9._-]+)?` -/
def reLoginE : RE :=
  .cat (lit ("login"))
    (.cat wsP (.cat (.opt (.cat (lit ("to")) wsP)) (.opt (.grp 1 (.plus tagC)))))

/-- `logout\s+(from\s+)?([a-zA-Z0-9._-]+)?` -/
def reLogoutT : RE :=
  .cat (lit ("logout"))
    (.cat wsP (.cat (.opt (.grp 1 fromWs)) (.opt (.grp 2 (.plus tagC)))))

/-- `logout\s+(?:from\s+)?([a-zA-Z0-9._-]+)?` -/
def reLogoutE : RE :=
  .cat (lit ("logout"))
    (.cat wsP (.cat (.opt fromWs) (.opt (.grp 1 (.plus tagC)))))

/-- `(help|usage|commands)` -/
def reHelp : RE := .grp 1 (altL [lit ("help"), lit ("usage"), lit ("commands")])

end DockerMCP

namespace DockerMCP

/- === Templates of the cascade branches: each computes the returned command
string from the normalized input and the captures of the extracting match
(`capStr` renders an absent group as "undefined", as JS interpolation does). === -/

/-- Template of the list-containers branch (index.ts 399-407). -/
def tmplListContainers (input : Str) (_m : Caps) : Str :=
  if containsSub input (("all").toList) || containsSub input (("stopped").toList) then
    ("docker ps -a").toList
  else if containsSub input (("running").toList) then ("docker ps").toList
  else ("docker ps -a").toList

/-- Template of the which-containers-are-running branch (409-411). -/
def tmplWhichRunning (_input : Str) (_m : Caps) : Str := ("docker ps").toList

/-- Template of the start branch (414-419). -/
def tmplStart (_input : Str) (m : Caps) : Str :=
  ("docker start ").toList ++ capStr m 2

/-- Template of the stop branch (421-427): the action is kill only when
capture 1 is "kill"; the name is read from the absent capture 3. -/
def tmplStop (_input : Str) (m : Caps) : Str :=
  ("docker ").toList ++
    (if getCap m 1 = some (("kill").toList) then ("kill").toList else ("stop").toList) ++
    (" ").toList ++ capStr m 3

/-- Template of the restart branch (429-434). -/
def tmplRestart (_input : Str) (m : Caps) : Str :=
  ("docker restart ").toList ++ capStr m 3

/-- Template of the remove-container branch (436-441). -/
def tmplRemove (_input : Str) (m : Caps) : Str :=
  ("docker rm ").toList ++ capStr m 3

/-- Template of the inspect branch (444-449). -/
def tmplInspect (_input : Str) (m : Caps) : Str :=
  ("docker inspect ").toList ++ capStr m 3

/-- Template of the logs branch (451-458). -/
def tmplLogs (input : Str) (m : Caps) : Str :=
  ("docker logs").toList ++
    (if containsSub input (("follow").toList) || containsSub input (("tail").toList) then
      (" -f").toList else []) ++
    (match jsMatch reLines input with
      | some m2 => (" --tail ").toList ++ capStr m2 1
      | none => []) ++
    (" ").toList ++ capStr m 2

/-- Template of the exec branch (460-466). -/
def tmplExec (input : Str) (m : Caps) : Str :=
  ("docker exec -it ").toList ++ capStr m 2 ++ (" ").toList ++
    (if containsSub input (("bash").toList) then ("bash").toList
     else if containsSub input (("sh").toList) then ("sh").toList
     else ("bash").toList)

/-- Template of the list-images branch (471-476). -/
def tmplListImages (input : Str) (_m : Caps) : Str :=
  if containsSub input (("dangling").toList) then
    ("docker images -f dangling=true").toList
  else ("docker images").toList

/-- Template of the pull branch (479-486). -/
def tmplPull (input : Str) (m : Caps) : Str :=
  let image := capStr m 2
  let tag := jsOrOpt (getCap m 3)
    (if containsSub input (("latest").toList) then ("latest").toList else [])
  ("docker pull ").toList ++ image ++
    (if tag ≠ [] then (":").toList ++ tag else [])

/-- Template of the push branch (489-496). -/
def tmplPush (_input : Str) (m : Caps) : Str :=
  let image := capStr m 2
  let tag := jsOrOpt (getCap m 3) []
  ("docker push ").toList ++ image ++
    (if tag ≠ [] then (":").toList ++ tag else [])

/-- Template of the build branch (499-506). -/
def tmplBuild (input : Str) (m : Caps) : Str :=
  let dockerfile :=
    if containsSub input (("dockerfile").toList) then
      (" -f ").toList ++
        jsOrOpt ((jsMatch reDockerfile input).bind (fun m2 => getCap m2 1))
          (("Dockerfile").toList)
    else []
  let context :=
    match jsMatch reFromIn input with
    | some m2 => (" ").toList ++ capStr m2 1
    | none => (" .").toList
  ("docker build").toList ++ dockerfile ++ (" -t ").toList ++ capStr m 3 ++ context

/-- Template of the remove-image branch (509-515). -/
def tmplRmi (input : Str) (m : Caps) : Str :=
  ("docker rmi").toList ++
    (if containsSub input (("force").toList) then (" -f").toList else []) ++
    (" ").toList ++ capStr m 3

/-- Template of the tag-image branch (518-523). -/
def tmplTag (_input : Str) (m : Caps) : Str :=
  ("docker tag ").toList ++ capStr m 2 ++ (" ").toList ++ capStr m 3

/-- Template of the list-volumes branch (527-532). -/
def tmplListVolumes (input : Str) (_m : Caps) : Str :=
  if containsSub input (("dangling").toList) then
    ("docker volume ls -f dangling=true").toList
  else ("docker volume ls").toList

/-- Template of the create-volume branch (534-539). -/
def tmplCreateVolume (_input : Str) (m : Caps) : Str :=
  ("docker volume create ").toList ++ capStr m 2

/-- Template of the remove-volume branch (541-546). -/
def tmplRemoveVolume (_input : Str) (m : Caps) : Str :=
  ("docker volume rm ").toList ++ capStr m 3

/-- Template of the inspect-volume branch (548-553). -/
def tmplInspectVolume (_input : Str) (m : Caps) : Str :=
  ("docker volume inspect ").toList ++ capStr m 3

/-- Template of the list-networks branch (557-559). -/
def tmplListNetworks (_input : Str) (_m : Caps) : Str := ("docker network ls").toList

/-- Template of the create-network branch (561-567). -/
def tmplCreateNetwork (input : Str) (m : Caps) : Str :=
  ("docker network create").toList ++
    (if containsSub input (("bridge").toList) then (" --driver bridge").toList
     else if containsSub input (("overlay").toList) then (" --driver overlay").toList
     else []) ++
    (" ").toList ++ capStr m 2

/-- Template of the remove-network branch (569-574). -/
def tmplRemoveNetwork (_input : Str) (m : Caps) : Str :=
  ("docker network rm ").toList ++ capStr m 3

/-- Template of the connect branch (576-581). -/
def tmplConnect (_input : Str) (m : Caps) : Str :=
  ("docker network connect ").toList ++ capStr m 3 ++ (" ").toList ++ capStr m 2

/-- Template of the disconnect branch (583-588): reads the absent capture 4. -/
def tmplDisconnect (_input : Str) (m : Caps) : Str :=
  ("docker network disconnect ").toList ++ capStr m 4 ++ (" ").toList ++ capStr m 2

/-- Template of the system-info branch (592-594). -/
def tmplSystemInfo (_input : Str) (_m : Caps) : Str := ("docker system info").toList

/-- Template of the version branch (596-598). -/
def tmplVersion (_input : Str) (_m : Caps) : Str :=
  ("docker --version && docker-compose --version").toList

/-- Template of the stats branch (600-603). -/
def tmplStats (input : Str) (_m : Caps) : Str :=
  ("docker stats").toList ++
    (if !(containsSub input (("follow").toList)) &&
        !(containsSub input (("continuous").toList)) then
      (" --no-stream").toList else [])

/-- Template of the disk-usage branch (605-608). -/
def tmplDiskUsage (input : Str) (_m : Caps) : Str :=
  ("docker system df").toList ++
    (if containsSub input (("verbose").toList) || containsSub input (("detailed").toList)
     then (" -v").toList else [])

/-- Template of the prune branch (610-618). -/
def tmplPrune (input : Str) (_m : Caps) : Str :=
  if containsSub input (("all").toList) || containsSub input (("everything").toList) then
    ("docker system prune -a -f").toList
  else if containsSub input (("volumes").toList) then
    ("docker system prune --volumes -f").toList
  else ("docker system prune -f").toList

/-- The ` service` suffix computed by the compose branches from
`service\s+([a-zA-Z0-9_-]+)`. -/
def serviceSuffix (input : Str) : Str :=
  match jsMatch reService input with
  | some m2 => (" ").toList ++ capStr m2 1
  | none => []

/-- Template of the compose-up branch (622-627). -/
def tmplComposeUp (input : Str) (_m : Caps) : Str :=
  ("docker-compose up").toList ++
    (if !(containsSub input (("foreground").toList)) &&
        !(containsSub input (("attached").toList)) then (" -d").toList else []) ++
    (if containsSub input (("build").toList) || containsSub input (("rebuild").toList)
     then (" --build").toList else []) ++
    serviceSuffix input

/-- Template of the compose-down branch (629-633). -/
def tmplComposeDown (input : Str) (_m : Caps) : Str :=
  ("docker-compose down").toList ++
    (if containsSub input (("volumes").toList) || containsSub input (("data").toList)
     then (" --volumes").toList else []) ++
    (if containsSub input (("images").toList) then (" --rmi all").toList else [])

/-- Template of the compose-logs branch (635-639). -/
def tmplComposeLogs (input : Str) (_m : Caps) : Str :=
  ("docker-compose logs").toList ++
    (if containsSub input (("follow").toList) || containsSub input (("tail").toList)
     then (" -f").toList else []) ++
    (match jsMatch reFromService input with
      | some m2 => (" ").toList ++ capStr m2 1
      | none => [])

/-- Template of the compose-ps branch (641-643). -/
def tmplComposePs (_input : Str) (_m : Caps) : Str := ("docker-compose ps").toList

/-- Template of the compose-restart branch (645-648). -/
def tmplComposeRestart (input : Str) (_m : Caps) : Str :=
  ("docker-compose restart").toList ++ serviceSuffix input

/-- Template of the compose-build branch (650-654). -/
def tmplComposeBuild (input : Str) (_m : Caps) : Str :=
  ("docker-compose build").toList ++
    (if containsSub input (("fresh").toList) || containsSub input (("clean").toList)
     then (" --no-cache").toList else []) ++
    serviceSuffix input

/-- Template of the search branch (659-664). -/
def tmplSearch (_input : Str) (m : Caps) : Str :=
  ("docker search ").toList ++ capStr m 2

/-- Template of the copy branch (667-677). -/
def tmplCopy (_input : Str) (m : Caps) : Str :=
  if getCap m 3 = some (("from").toList) then
    ("docker cp ").toList ++ capStr m 4 ++ (":").toList ++ capStr m 2 ++ (" .").toList
  else
    ("docker cp ").toList ++ capStr m 2 ++ (" ").toList ++ capStr m 4 ++ (":/tmp/").toList

/-- Template of the port branch (680-685). -/
def tmplPort (_input : Str) (m : Caps) : Str :=
  ("docker port ").toList ++ capStr m 2

/-- Template of the top branch (688-693): reads the absent capture 3. -/
def tmplTop (_input : Str) (m : Caps) : Str :=
  ("docker top ").toList ++ capStr m 3

/-- Template of the login branch (697-701). -/
def tmplLogin (_input : Str) (m : Caps) : Str :=
  let registry := jsOrOpt (getCap m 1) []
  ("docker login").toList ++ (if registry ≠ [] then (" ").toList ++ registry else [])

/-- Template of the logout branch (703-707). -/
def tmplLogout (_input : Str) (m : Caps) : Str :=
  let registry := jsOrOpt (getCap m 1) []
  ("docker logout").toList ++ (if registry ≠ [] then (" ").toList ++ registry else [])

end DockerMCP

namespace DockerMCP

/- === The branches of parseDockerCommand in source order.  A branch that
falls through (test regex fails, or — for the branches that re-match with a
second regex — the extracting match is null) yields `none`. === -/

/-- Branch: list containers. -/
def brListContainers (input : Str) : Option Str :=
  if jsTest reListContainers input then some (tmplListContainers input []) else none

/-- Branch: which containers are running. -/
def brWhichRunning (input : Str) : Option Str :=
  if jsTest reWhichRunning input then some (tmplWhichRunning input []) else none

/-- Branch: start container. -/
def brStart (input : Str) : Option Str :=
  if jsTest reStartT input then (jsMatch reStartE input).map (tmplStart input) else none

/-- Branch: stop container. -/
def brStop (input : Str) : Option Str :=
  if jsTest reStopT input then (jsMatch reStopE input).map (tmplStop input) else none

/-- Branch: restart container. -/
def brRestart (input : Str) : Option Str :=
  if jsTest reRestartT input then (jsMatch reRestartE input).map (tmplRestart input) else none

/-- Branch: remove container. -/
def brRemove (input : Str) : Option Str :=
  if jsTest reRemoveT input then (jsMatch reRemoveE input).map (tmplRemove input) else none

/-- Branch: inspect container. -/
def brInspect (input : Str) : Option Str :=
  if jsTest reInspectT input then (jsMatch reInspectE input).map (tmplInspect input) else none

/-- Branch: container logs. -/
def brLogs (input : Str) : Option Str :=
  if jsTest reLogsT input then (jsMatch reLogsE input).map (tmplLogs input) else none

/-- Branch: exec in container. -/
def brExec (input : Str) : Option Str :=
  if jsTest reExecT input then (jsMatch reExecE input).map (tmplExec input) else none

/-- Branch: list images. -/
def brListImages (input : Str) : Option Str :=
  if jsTest reListImages input then some (tmplListImages input []) else none

/-- Branch: pull image. -/
def brPull (input : Str) : Option Str :=
  if jsTest rePullT input then (jsMatch rePullE input).map (tmplPull input) else none

/-- Branch: push image. -/
def brPush (input : Str) : Option Str :=
  if jsTest rePushT input then (jsMatch rePushE input).map (tmplPush input) else none

/-- Branch: build image. -/
def brBuild (input : Str) : Option Str :=
  if jsTest reBuildT input then (jsMatch reBuildE input).map (tmplBuild input) else none

/-- Branch: remove image. -/
def brRmi (input : Str) : Option Str :=
  if jsTest reRmiT input then (jsMatch reRmiE input).map (tmplRmi input) else none

/-- Branch: tag image. -/
def brTag (input : Str) : Option Str :=
  if jsTest reTagT input then (jsMatch reTagE input).map (tmplTag input) else none

/-- Branch: list volumes. -/
def brListVolumes (input : Str) : Option Str :=
  if jsTest reListVolumes input then some (tmplListVolumes input []) else none

/-- Branch: create volume. -/
def brCreateVolume (input : Str) : Option Str :=
  if jsTest reCreateVolumeT input then
    (jsMatch reCreateVolumeE input).map (tmplCreateVolume input) else none

/-- Branch: remove volume. -/
def brRemoveVolume (input : Str) : Option Str :=
  if jsTest reRemoveVolumeT input then
    (jsMatch reRemoveVolumeE input).map (tmplRemoveVolume input) else none

/-- Branch: inspect volume. -/
def brInspectVolume (input : Str) : Option Str :=
  if jsTest reInspectVolumeT input then
    (jsMatch reInspectVolumeE input).map (tmplInspectVolume input) else none

/-- Branch: list networks. -/
def brListNetworks (input : Str) : Option Str :=
  if jsTest reListNetworks input then some (tmplListNetworks input []) else none

/-- Branch: create network. -/
def brCreateNetwork (input : Str) : Option Str :=
  if jsTest reCreateNetworkT input then
    (jsMatch reCreateNetworkE input).map (tmplCreateNetwork input) else none

/-- Branch: remove network. -/
def brRemoveNetwork (input : Str) : Option Str :=
  if jsTest reRemoveNetworkT input then
    (jsMatch reRemoveNetworkE input).map (tmplRemoveNetwork input) else none

/-- Branch: connect to network. -/
def brConnect (input : Str) : Option Str :=
  if jsTest reConnectT input then (jsMatch reConnectE input).map (tmplConnect input) else none

/-- Branch: disconnect from network. -/
def brDisconnect (input : Str) : Option Str :=
  if jsTest reDisconnectT input then
    (jsMatch reDisconnectE input).map (tmplDisconnect input) else none

/-- Branch: system info. -/
def brSystemInfo (input : Str) : Option Str :=
  if jsTest reSystemInfo input then some (tmplSystemInfo input []) else none

/-- Branch: version. -/
def brVersion (input : Str) : Option Str :=
  if jsTest reVersion input then some (tmplVersion input []) else none

/-- Branch: stats. -/
def brStats (input : Str) : Option Str :=
  if jsTest reStats input then some (tmplStats input []) else none

/-- Branch: disk usage. -/
def brDiskUsage (input : Str) : Option Str :=
  if jsTest reDiskUsage input then some (tmplDiskUsage input []) else none

/-- Branch: prune. -/
def brPrune (input : Str) : Option Str :=
  if jsTest rePrune input then some (tmplPrune input []) else none

/-- Branch: compose up. -/
def brComposeUp (input : Str) : Option Str :=
  if jsTest reComposeUp input then some (tmplComposeUp input []) else none

/-- Branch: compose down. -/
def brComposeDown (input : Str) : Option Str :=
  if jsTest reComposeDown input then some (tmplComposeDown input []) else none

/-- Branch: compose logs. -/
def brComposeLogs (input : Str) : Option Str :=
  if jsTest reComposeLogs input then some (tmplComposeLogs input []) else none

/-- Branch: compose ps. -/
def brComposePs (input : Str) : Option Str :=
  if jsTest reComposePs input then some (tmplComposePs input []) else none

/-- Branch: compose restart. -/
def brComposeRestart (input : Str) : Option Str :=
  if jsTest reComposeRestart input then some (tmplComposeRestart input []) else none

/-- Branch: compose build. -/
def brComposeBuild (input : Str) : Option Str :=
  if jsTest reComposeBuild input then some (tmplComposeBuild input []) else none

/-- Branch: search. -/
def brSearch (input : Str) : Option Str :=
  if jsTest reSearchT input then (jsMatch reSearchE input).map (tmplSearch input) else none

/-- Branch: copy (the source re-matches with the same regex). -/
def brCopy (input : Str) : Option Str :=
  if jsTest reCopy input then (jsMatch reCopy input).map (tmplCopy input) else none

/-- Branch: port mappings. -/
def brPort (input : Str) : Option Str :=
  if jsTest rePortT input then (jsMatch rePortE input).map (tmplPort input) else none

/-- Branch: top. -/
def brTop (input : Str) : Option Str :=
  if jsTest reTopT input then (jsMatch reTopE input).map (tmplTop input) else none

/-- Branch: login (the source reads the captures through `match?.`, so this
branch never falls through once the test succeeds). -/
def brLogin (input : Str) : Option Str :=
  if jsTest reLoginT input then
    some (tmplLogin input ((jsMatch reLoginE input).getD []))
  else none

/-- Branch: logout. -/
def brLogout (input : Str) : Option Str :=
  if jsTest reLogoutT input then
    some (tmplLogout input ((jsMatch reLogoutE input).getD []))
  else none

/-- The fallback section of parseDockerCommand (709-722). -/
def pdcFallback (input : Str) : Str :=
  if isPre (("docker").toList) input then input
  else if jsTest reHelp input then ("docker --help").toList
  else ("docker ").toList ++ input

/-- First-match-wins over a list of branches (the source's early returns). -/
def firstOf : List (Str → Option Str) → Str → Option Str
  | [], _ => none
  | f :: fs, input =>
    match f input with
    | some r => some r
    | none => firstOf fs input

/-- The branches of parseDockerCommand in source order. -/
def branchL : List (Str → Option Str) :=
  [brListContainers, brWhichRunning, brStart, brStop, brRestart, brRemove,
   brInspect, brLogs, brExec, brListImages, brPull, brPush, brBuild, brRmi,
   brTag, brListVolumes, brCreateVolume, brRemoveVolume, brInspectVolume,
   brListNetworks, brCreateNetwork, brRemoveNetwork, brConnect, brDisconnect,
   brSystemInfo, brVersion, brStats, brDiskUsage, brPrune, brComposeUp,
   brComposeDown, brComposeLogs, brComposePs, brComposeRestart, brComposeBuild,
   brSearch, brCopy, brPort, brTop, brLogin, brLogout]

/-- `parseDockerCommand` (src/src/index.ts 393-723): lowercase and trim the
input, run the cascade of branches in order, else fall back. -/
def parseDockerCommand (s : Str) : Str :=
  let input := trimStr (lowerStr s)
  match firstOf branchL input with
  | some r => r
  | none => pdcFallback input

/-- String-level wrapper of `parseDockerCommand`. -/
def parseDockerCommandS (s : String) : String :=
  ⟨parseDockerCommand s.toList⟩

end DockerMCP

namespace DockerMCP

/- === Reference cascade for claim C1: an ordered list of pattern/template
pairs, walked in order; the first entry whose pattern matches determines the
output.  The pattern of each entry is the extracting regex of the source (the
one whose captures the template consumes). === -/

/-- A pattern/template pair of the translation cascade. -/
structure PatEntry where
  pat : RE
  tmpl : Str → Caps → Str

/-- Apply one pattern/template pair to the input: substitute the captures of
the (leftmost) match into the template. -/
def runEntry (e : PatEntry) (input : Str) : Option Str :=
  (jsMatch e.pat input).map (e.tmpl input)

/-- Walk the entries in order and commit to the first matching pattern. -/
def firstEntry : List PatEntry → Str → Option Str
  | [], _ => none
  | e :: es, input =>
    match runEntry e input with
    | some r => some r
    | none => firstEntry es input

/-- The ordered pattern/template list of the cascade. -/
def cascadeSpec : List PatEntry :=
  [⟨reListContainers, tmplListContainers⟩, ⟨reWhichRunning, tmplWhichRunning⟩,
   ⟨reStartE, tmplStart⟩, ⟨reStopE, tmplStop⟩, ⟨reRestartE, tmplRestart⟩,
   ⟨reRemoveE, tmplRemove⟩, ⟨reInspectE, tmplInspect⟩, ⟨reLogsE, tmplLogs⟩,
   ⟨reExecE, tmplExec⟩, ⟨reListImages, tmplListImages⟩, ⟨rePullE, tmplPull⟩,
   ⟨rePushE, tmplPush⟩, ⟨reBuildE, tmplBuild⟩, ⟨reRmiE, tmplRmi⟩,
   ⟨reTagE, tmplTag⟩, ⟨reListVolumes, tmplListVolumes⟩,
   ⟨reCreateVolumeE, tmplCreateVolume⟩, ⟨reRemoveVolumeE, tmplRemoveVolume⟩,
   ⟨reInspectVolumeE, tmplInspectVolume⟩, ⟨reListNetworks, tmplListNetworks⟩,
   ⟨reCreateNetworkE, tmplCreateNetwork⟩, ⟨reRemoveNetworkE, tmplRemoveNetwork⟩,
   ⟨reConnectE, tmplConnect⟩, ⟨reDisconnectE, tmplDisconnect⟩,
   ⟨reSystemInfo, tmplSystemInfo⟩, ⟨reVersion, tmplVersion⟩, ⟨reStats, tmplStats⟩,
   ⟨reDiskUsage, tmplDiskUsage⟩, ⟨rePrune, tmplPrune⟩,
   ⟨reComposeUp, tmplComposeUp⟩, ⟨reComposeDown, tmplComposeDown⟩,
   ⟨reComposeLogs, tmplComposeLogs⟩, ⟨reComposePs, tmplComposePs⟩,
   ⟨reComposeRestart, tmplComposeRestart⟩, ⟨reComposeBuild, tmplComposeBuild⟩,
   ⟨reSearchE, tmplSearch⟩, ⟨reCopy, tmplCopy⟩, ⟨rePortE, tmplPort⟩,
   ⟨reTopE, tmplTop⟩, ⟨reLoginE, tmplLogin⟩, ⟨reLogoutE, tmplLogout⟩]

/-- Reference definition following the specification: lowercase and trim the
input, then try each pattern of the fixed ordered list in turn; the first
pattern that matches determines the output (its captures are substituted into
its template), so no later pattern can influence the result; when no pattern
matches, the fallback applies. -/
def parseDockerCommandCascadeSpec (s : Str) : Str :=
  let input := trimStr (lowerStr s)
  match firstEntry cascadeSpec input with
  | some r => r
  | none => pdcFallback input

/- === Capture-erasure: whether a regex matches does not depend on its
capturing groups.  This justifies that a branch whose test regex succeeded
can never fall through at its extracting re-match. === -/

/-- The skeleton of a regex: capturing groups erased. -/
def skel : RE → RE
  | .cat a b => .cat (skel a) (skel b)
  | .alt a b => .alt (skel a) (skel b)
  | .opt a => .opt (skel a)
  | .grp _ a => skel a
  | r => r

/-- Capture-free Boolean analogue of `starGreedy`. -/
def starChk (p : Char → Bool) : Str → (Str → Bool) → Bool
  | [], k => k []
  | c :: rest, k =>
    if p c then (starChk p rest k || k (c :: rest)) else k (c :: rest)

/-- Capture-free Boolean analogue of `mrun`. -/
def mchk : RE → Str → (Str → Bool) → Bool
  | .eps, s, k => k s
  | .str l, s, k => if isPre l s then k (s.drop l.length) else false
  | .cls p, s, k =>
    match s with
    | [] => false
    | c :: r => if p c then k r else false
  | .plus p, s, k =>
    match s with
    | [] => false
    | c :: r => if p c then starChk p r k else false
  | .star p, s, k => starChk p s k
  | .cat a b, s, k => mchk a s (fun s' => mchk b s' k)
  | .alt a b, s, k => mchk a s k || mchk b s k
  | .opt a, s, k => mchk a s k || k s
  | .grp _ a, s, k => mchk a s k

theorem starGreedy_isSome (p : Char → Bool) (k : Str → Option (Str × Caps))
    (kb : Str → Bool) (h : ∀ s', (k s').isSome = kb s') :
    ∀ s, (starGreedy p s k).isSome = starChk p s kb := by
  intro s
  induction s with
  | nil => simpa [starGreedy, starChk] using h []
  | cons c r ih =>
    by_cases hp : p c
    · simp only [starGreedy, starChk, hp, if_pos]
      cases hx : starGreedy p r k with
      | some v => rw [hx] at ih; simp [← ih]
      | none => rw [hx] at ih; simp [← ih, h]
    · simp [starGreedy, starChk, hp, h]

theorem mrun_isSome (re : RE) : ∀ (s : Str) (m : Caps)
    (k : Str → Caps → Option (Str × Caps)) (kb : Str → Bool),
    (∀ s' m', (k s' m').isSome = kb s') →
    (mrun re s m k).isSome = mchk re s kb := by
  induction re with
  | eps =>
    intro s m k kb h
    simpa [mrun, mchk] using h s m
  | str l =>
    intro s m k kb h
    simp only [mrun, mchk]
    by_cases hp : isPre l s <;> simp [hp, h]
  | cls p =>
    intro s m k kb h
    cases s with
    | nil => simp [mrun, mchk]
    | cons c r => by_cases hp : p c <;> simp [mrun, mchk, hp, h]
  | plus p =>
    intro s m k kb h
    cases s with
    | nil => simp [mrun, mchk]
    | cons c r =>
      by_cases hp : p c
      · simp only [mrun, mchk, hp, if_pos]
        exact starGreedy_isSome p (fun s' => k s' m) kb (fun s' => h s' m) r
      · simp [mrun, mchk, hp]
  | star p =>
    intro s m k kb h
    exact starGreedy_isSome p (fun s' => k s' m) kb (fun s' => h s' m) s
  | cat a b iha ihb =>
    intro s m k kb h
    simp only [mrun, mchk]
    exact iha s m _ _ (fun s' m' => ihb s' m' k kb h)
  | alt a b iha ihb =>
    intro s m k kb h
    simp only [mrun, mchk]
    cases hx : mrun a s m k with
    | some v =>
      have := iha s m k kb h
      rw [hx] at this
      simp [← this]
    | none =>
      have := iha s m k kb h
      rw [hx] at this
      simp [← this, ihb s m k kb h]
  | opt a iha =>
    intro s m k kb h
    simp only [mrun, mchk]
    cases hx : mrun a s m k with
    | some v =>
      have := iha s m k kb h
      rw [hx] at this
      simp [← this]
    | none =>
      have := iha s m k kb h
      rw [hx] at this
      simp [← this, h]
  | grp i a iha =>
    intro s m k kb h
    simp only [mrun, mchk]
    exact iha s m _ kb (fun s' m' => h s' _)

theorem mchk_skel (re : RE) : ∀ (s : Str) (kb : Str → Bool),
    mchk re s kb = mchk (skel re) s kb := by
  induction re with
  | eps => intro s kb; rfl
  | str l => intro s kb; rfl
  | cls p => intro s kb; rfl
  | plus p => intro s kb; rfl
  | star p => intro s kb; rfl
  | cat a b iha ihb =>
    intro s kb
    simp only [mchk, skel]
    rw [show (fun s' => mchk b s' kb) = (fun s' => mchk (skel b) s' kb) from
      funext (fun s' => ihb s' kb), iha]
  | alt a b iha ihb =>
    intro s kb
    simp only [mchk, skel, iha, ihb]
  | opt a iha =>
    intro s kb
    simp only [mchk, skel, iha]
  | grp i a iha =>
    intro s kb
    simp only [mchk, skel, iha]

theorem matchHere_isSome (re : RE) (s : Str) :
    (matchHere re s).isSome = mchk (skel re) s (fun _ => true) := by
  rw [← mchk_skel]
  exact mrun_isSome re s [] _ _ (fun _ _ => rfl)

theorem matchHere_isSome_of_skel (re1 re2 : RE) (h : skel re1 = skel re2)
    (s : Str) : (matchHere re1 s).isSome = (matchHere re2 s).isSome := by
  rw [matchHere_isSome, matchHere_isSome, h]

theorem searchSplitAux_isSome (re1 re2 : RE)
    (h : ∀ s, (matchHere re1 s).isSome = (matchHere re2 s).isSome) :
    ∀ (s acc : Str),
      (searchSplitAux re1 acc s).isSome = (searchSplitAux re2 acc s).isSome := by
  intro s
  induction s with
  | nil =>
    intro acc
    have hh := h []
    simp only [searchSplitAux]
    cases h1 : matchHere re1 [] <;> cases h2 : matchHere re2 [] <;>
      rw [h1, h2] at hh <;> simp_all
  | cons c r ih =>
    intro acc
    have hh := h (c :: r)
    simp only [searchSplitAux]
    cases h1 : matchHere re1 (c :: r) <;> cases h2 : matchHere re2 (c :: r) <;>
      rw [h1, h2] at hh <;> simp_all [ih]

theorem jsTest_of_skel (re1 re2 : RE) (h : skel re1 = skel re2) (s : Str) :
    jsTest re1 s = jsTest re2 s := by
  simp only [jsTest, jsMatch, searchSplit]
  have hs := searchSplitAux_isSome re1 re2 (matchHere_isSome_of_skel re1 re2 h) s []
  cases h1 : searchSplitAux re1 [] s <;> cases h2 : searchSplitAux re2 [] s <;>
    rw [h1, h2] at hs <;> simp_all

theorem jsMatch_eq_none_of_test_false (re : RE) (s : Str)
    (h : jsTest re s = false) : jsMatch re s = none := by
  cases hj : jsMatch re s with
  | none => rfl
  | some m => rw [jsTest, hj] at h; simp at h

end DockerMCP

namespace DockerMCP

theorem br_double_eq (reT reE : RE) (tm : Str → Caps → Str) (input : Str)
    (h : skel reT = skel reE) :
    (if jsTest reT input then (jsMatch reE input).map (tm input) else none) =
      runEntry ⟨reE, tm⟩ input := by
  cases hb : jsTest reT input with
  | false =>
    have h2 : jsTest reE input = false := by
      rw [← jsTest_of_skel reT reE h input, hb]
    have h3 := jsMatch_eq_none_of_test_false reE input h2
    simp [hb, h3, runEntry]
  | true => simp [hb, runEntry]

theorem br_single_eq (re : RE) (tm : Str → Caps → Str) (input : Str)
    (hIgn : ∀ m, tm input m = tm input []) :
    (if jsTest re input then some (tm input []) else none) =
      runEntry ⟨re, tm⟩ input := by
  cases hb : jsTest re input with
  | false =>
    have h3 := jsMatch_eq_none_of_test_false re input hb
    simp [hb, h3, runEntry]
  | true =>
    have hb' := hb
    rw [jsTest] at hb'
    cases hj : jsMatch re input with
    | none => rw [hj] at hb'; simp at hb'
    | some m => simp [hb, runEntry, hj, hIgn m]

theorem br_getD_eq (reT reE : RE) (tm : Str → Caps → Str) (input : Str)
    (h : skel reT = skel reE) :
    (if jsTest reT input then some (tm input ((jsMatch reE input).getD [])) else none) =
      runEntry ⟨reE, tm⟩ input := by
  cases hb : jsTest reT input with
  | false =>
    have h2 : jsTest reE input = false := by
      rw [← jsTest_of_skel reT reE h input, hb]
    have h3 := jsMatch_eq_none_of_test_false reE input h2
    simp [hb, h3, runEntry]
  | true =>
    have h2 : jsTest reE input = true := by
      rw [← jsTest_of_skel reT reE h input, hb]
    rw [jsTest] at h2
    cases hj : jsMatch reE input with
    | none => rw [hj] at h2; simp at h2
    | some m => simp [hb, runEntry, hj]

end DockerMCP

namespace DockerMCP

theorem brListContainers_eq (input : Str) :
    brListContainers input = runEntry ⟨reListContainers, tmplListContainers⟩ input := by
  unfold brListContainers
  exact br_single_eq reListContainers tmplListContainers input (fun _ => rfl)

theorem brWhichRunning_eq (input : Str) :
    brWhichRunning input = runEntry ⟨reWhichRunning, tmplWhichRunning⟩ input := by
  unfold brWhichRunning
  exact br_single_eq reWhichRunning tmplWhichRunning input (fun _ => rfl)

theorem brStart_eq (input : Str) :
    brStart input = runEntry ⟨reStartE, tmplStart⟩ input := by
  unfold brStart
  exact br_double_eq reStartT reStartE tmplStart input rfl

theorem brStop_eq (input : Str) :
    brStop input = runEntry ⟨reStopE, tmplStop⟩ input := by
  unfold brStop
  exact br_double_eq reStopT reStopE tmplStop input rfl

theorem brRestart_eq (input : Str) :
    brRestart input = runEntry ⟨reRestartE, tmplRestart⟩ input := by
  unfold brRestart
  exact br_double_eq reRestartT reRestartE tmplRestart input rfl

theorem brRemove_eq (input : Str) :
    brRemove input = runEntry ⟨reRemoveE, tmplRemove⟩ input := by
  unfold brRemove
  exact br_double_eq reRemoveT reRemoveE tmplRemove input rfl

theorem brInspect_eq (input : Str) :
    brInspect input = runEntry ⟨reInspectE, tmplInspect⟩ input := by
  unfold brInspect
  exact br_double_eq reInspectT reInspectE tmplInspect input rfl

theorem brLogs_eq (input : Str) :
    brLogs input = runEntry ⟨reLogsE, tmplLogs⟩ input := by
  unfold brLogs
  exact br_double_eq reLogsT reLogsE tmplLogs input rfl

theorem brExec_eq (input : Str) :
    brExec input = runEntry ⟨reExecE, tmplExec⟩ input := by
  unfold brExec
  exact br_double_eq reExecT reExecE tmplExec input rfl

theorem brListImages_eq (input : Str) :
    brListImages input = runEntry ⟨reListImages, tmplListImages⟩ input := by
  unfold brListImages
  exact br_single_eq reListImages tmplListImages input (fun _ => rfl)

theorem brPull_eq (input : Str) :
    brPull input = runEntry ⟨rePullE, tmplPull⟩ input := by
  unfold brPull
  exact br_double_eq rePullT rePullE tmplPull input rfl

theorem brPush_eq (input : Str) :
    brPush input = runEntry ⟨rePushE, tmplPush⟩ input := by
  unfold brPush
  exact br_double_eq rePushT rePushE tmplPush input rfl

theorem brBuild_eq (input : Str) :
    brBuild input = runEntry ⟨reBuildE, tmplBuild⟩ input := by
  unfold brBuild
  exact br_double_eq reBuildT reBuildE tmplBuild input rfl

theorem brRmi_eq (input : Str) :
    brRmi input = runEntry ⟨reRmiE, tmplRmi⟩ input := by
  unfold brRmi
  exact br_double_eq reRmiT reRmiE tmplRmi input rfl

theorem brTag_eq (input : Str) :
    brTag input = runEntry ⟨reTagE, tmplTag⟩ input := by
  unfold brTag
  exact br_double_eq reTagT reTagE tmplTag input rfl

theorem brListVolumes_eq (input : Str) :
    brListVolumes input = runEntry ⟨reListVolumes, tmplListVolumes⟩ input := by
  unfold brListVolumes
  exact br_single_eq reListVolumes tmplListVolumes input (fun _ => rfl)

theorem brCreateVolume_eq (input : Str) :
    brCreateVolume input = runEntry ⟨reCreateVolumeE, tmplCreateVolume⟩ input := by
  unfold brCreateVolume
  exact br_double_eq reCreateVolumeT reCreateVolumeE tmplCreateVolume input rfl

theorem brRemoveVolume_eq (input : Str) :
    brRemoveVolume input = runEntry ⟨reRemoveVolumeE, tmplRemoveVolume⟩ input := by
  unfold brRemoveVolume
  exact br_double_eq reRemoveVolumeT reRemoveVolumeE tmplRemoveVolume input rfl

theorem brInspectVolume_eq (input : Str) :
    brInspectVolume input = runEntry ⟨reInspectVolumeE, tmplInspectVolume⟩ input := by
  unfold brInspectVolume
  exact br_double_eq reInspectVolumeT reInspectVolumeE tmplInspectVolume input rfl

theorem brListNetworks_eq (input : Str) :
    brListNetworks input = runEntry ⟨reListNetworks, tmplListNetworks⟩ input := by
  unfold brListNetworks
  exact br_single_eq reListNetworks tmplListNetworks input (fun _ => rfl)

theorem brCreateNetwork_eq (input : Str) :
    brCreateNetwork input = runEntry ⟨reCreateNetworkE, tmplCreateNetwork⟩ input := by
  unfold brCreateNetwork
  exact br_double_eq reCreateNetworkT reCreateNetworkE tmplCreateNetwork input rfl

theorem brRemoveNetwork_eq (input : Str) :
    brRemoveNetwork input = runEntry ⟨reRemoveNetworkE, tmplRemoveNetwork⟩ input := by
  unfold brRemoveNetwork
  exact br_double_eq reRemoveNetworkT reRemoveNetworkE tmplRemoveNetwork input rfl

theorem brConnect_eq (input : Str) :
    brConnect input = runEntry ⟨reConnectE, tmplConnect⟩ input := by
  unfold brConnect
  exact br_double_eq reConnectT reConnectE tmplConnect input rfl

theorem brDisconnect_eq (input : Str) :
    brDisconnect input = runEntry ⟨reDisconnectE, tmplDisconnect⟩ input := by
  unfold brDisconnect
  exact br_double_eq reDisconnectT reDisconnectE tmplDisconnect input rfl

theorem brSystemInfo_eq (input : Str) :
    brSystemInfo input = runEntry ⟨reSystemInfo, tmplSystemInfo⟩ input := by
  unfold brSystemInfo
  exact br_single_eq reSystemInfo tmplSystemInfo input (fun _ => rfl)

theorem brVersion_eq (input : Str) :
    brVersion input = runEntry ⟨reVersion, tmplVersion⟩ input := by
  unfold brVersion
  exact br_single_eq reVersion tmplVersion input (fun _ => rfl)

theorem brStats_eq (input : Str) :
    brStats input = runEntry ⟨reStats, tmplStats⟩ input := by
  unfold brStats
  exact br_single_eq reStats tmplStats input (fun _ => rfl)

theorem brDiskUsage_eq (input : Str) :
    brDiskUsage input = runEntry ⟨reDiskUsage, tmplDiskUsage⟩ input := by
  unfold brDiskUsage
  exact br_single_eq reDiskUsage tmplDiskUsage input (fun _ => rfl)

theorem brPrune_eq (input : Str) :
    brPrune input = runEntry ⟨rePrune, tmplPrune⟩ input := by
  unfold brPrune
  exact br_single_eq rePrune tmplPrune input (fun _ => rfl)

theorem brComposeUp_eq (input : Str) :
    brComposeUp input = runEntry ⟨reComposeUp, tmplComposeUp⟩ input := by
  unfold brComposeUp
  exact br_single_eq reComposeUp tmplComposeUp input (fun _ => rfl)

theorem brComposeDown_eq (input : Str) :
    brComposeDown input = runEntry ⟨reComposeDown, tmplComposeDown⟩ input := by
  unfold brComposeDown
  exact br_single_eq reComposeDown tmplComposeDown input (fun _ => rfl)

theorem brComposeLogs_eq (input : Str) :
    brComposeLogs input = runEntry ⟨reComposeLogs, tmplComposeLogs⟩ input := by
  unfold brComposeLogs
  exact br_single_eq reComposeLogs tmplComposeLogs input (fun _ => rfl)

theorem brComposePs_eq (input : Str) :
    brComposePs input = runEntry ⟨reComposePs, tmplComposePs⟩ input := by
  unfold brComposePs
  exact br_single_eq reComposePs tmplComposePs input (fun _ => rfl)

theorem brComposeRestart_eq (input : Str) :
    brComposeRestart input = runEntry ⟨reComposeRestart, tmplComposeRestart⟩ input := by
  unfold brComposeRestart
  exact br_single_eq reComposeRestart tmplComposeRestart input (fun _ => rfl)

theorem brComposeBuild_eq (input : Str) :
    brComposeBuild input = runEntry ⟨reComposeBuild, tmplComposeBuild⟩ input := by
  unfold brComposeBuild
  exact br_single_eq reComposeBuild tmplComposeBuild input (fun _ => rfl)

theorem brSearch_eq (input : Str) :
    brSearch input = runEntry ⟨reSearchE, tmplSearch⟩ input := by
  unfold brSearch
  exact br_double_eq reSearchT reSearchE tmplSearch input rfl

theorem brCopy_eq (input : Str) :
    brCopy input = runEntry ⟨reCopy, tmplCopy⟩ input := by
  unfold brCopy
  exact br_double_eq reCopy reCopy tmplCopy input rfl

theorem brPort_eq (input : Str) :
    brPort input = runEntry ⟨rePortE, tmplPort⟩ input := by
  unfold brPort
  exact br_double_eq rePortT rePortE tmplPort input rfl

theorem brTop_eq (input : Str) :
    brTop input = runEntry ⟨reTopE, tmplTop⟩ input := by
  unfold brTop
  exact br_double_eq reTopT reTopE tmplTop input rfl

theorem brLogin_eq (input : Str) :
    brLogin input = runEntry ⟨reLoginE, tmplLogin⟩ input := by
  unfold brLogin
  exact br_getD_eq reLoginT reLoginE tmplLogin input rfl

theorem brLogout_eq (input : Str) :
    brLogout input = runEntry ⟨reLogoutE, tmplLogout⟩ input := by
  unfold brLogout
  exact br_getD_eq reLogoutT reLogoutE tmplLogout input rfl

theorem firstOf_step (f : Str → Option Str) (e : PatEntry)
    (fs : List (Str → Option Str)) (es : List PatEntry) (input : Str)
    (h1 : f input = runEntry e input)
    (h2 : firstOf fs input = firstEntry es input) :
    firstOf (f :: fs) input = firstEntry (e :: es) input := by
  simp only [firstOf, firstEntry, h1, h2]

theorem cascade_eq (input : Str) :
    firstOf branchL input = firstEntry cascadeSpec input := by
  unfold branchL cascadeSpec
  refine firstOf_step _ _ _ _ _ (brListContainers_eq input) ?_
  refine firstOf_step _ _ _ _ _ (brWhichRunning_eq input) ?_
  refine firstOf_step _ _ _ _ _ (brStart_eq input) ?_
  refine firstOf_step _ _ _ _ _ (brStop_eq input) ?_
  refine firstOf_step _ _ _ _ _ (brRestart_eq input) ?_
  refine firstOf_step _ _ _ _ _ (brRemove_eq input) ?_
  refine firstOf_step _ _ _ _ _ (brInspect_eq input) ?_
  refine firstOf_step _ _ _ _ _ (brLogs_eq input) ?_
  refine firstOf_step _ _ _ _ _ (brExec_eq input) ?_
  refine firstOf_step _ _ _ _ _ (brListImages_eq input) ?_
  refine firstOf_step _ _ _ _ _ (brPull_eq input) ?_
  refine firstOf_step _ _ _ _ _ (brPush_eq input) ?_
  refine firstOf_step _ _ _ _ _ (brBuild_eq input) ?_
  refine firstOf_step _ _ _ _ _ (brRmi_eq input) ?_
  refine firstOf_step _ _ _ _ _ (brTag_eq input) ?_
  refine firstOf_step _ _ _ _ _ (brListVolumes_eq input) ?_
  refine firstOf_step _ _ _ _ _ (brCreateVolume_eq input) ?_
  refine firstOf_step _ _ _ _ _ (brRemoveVolume_eq input) ?_
  refine firstOf_step _ _ _ _ _ (brInspectVolume_eq input) ?_
  refine firstOf_step _ _ _ _ _ (brListNetworks_eq input) ?_
  refine firstOf_step _ _ _ _ _ (brCreateNetwork_eq input) ?_
  refine firstOf_step _ _ _ _ _ (brRemoveNetwork_eq input) ?_
  refine firstOf_step _ _ _ _ _ (brConnect_eq input) ?_
  refine firstOf_step _ _ _ _ _ (brDisconnect_eq input) ?_
  refine firstOf_step _ _ _ _ _ (brSystemInfo_eq input) ?_
  refine firstOf_step _ _ _ _ _ (brVersion_eq input) ?_
  refine firstOf_step _ _ _ _ _ (brStats_eq input) ?_
  refine firstOf_step _ _ _ _ _ (brDiskUsage_eq input) ?_
  refine firstOf_step _ _ _ _ _ (brPrune_eq input) ?_
  refine firstOf_step _ _ _ _ _ (brComposeUp_eq input) ?_
  refine firstOf_step _ _ _ _ _ (brComposeDown_eq input) ?_
  refine firstOf_step _ _ _ _ _ (brComposeLogs_eq input) ?_
  refine firstOf_step _ _ _ _ _ (brComposePs_eq input) ?_
  refine firstOf_step _ _ _ _ _ (brComposeRestart_eq input) ?_
  refine firstOf_step _ _ _ _ _ (brComposeBuild_eq input) ?_
  refine firstOf_step _ _ _ _ _ (brSearch_eq input) ?_
  refine firstOf_step _ _ _ _ _ (brCopy_eq input) ?_
  refine firstOf_step _ _ _ _ _ (brPort_eq input) ?_
  refine firstOf_step _ _ _ _ _ (brTop_eq input) ?_
  refine firstOf_step _ _ _ _ _ (brLogin_eq input) ?_
  refine firstOf_step _ _ _ _ _ (brLogout_eq input) ?_
  rfl

end DockerMCP

namespace DockerMCP

theorem isPre_append_of (p a x : Str) (h : isPre p a = true) :
    isPre p (a ++ x) = true := by
  induction p generalizing a with
  | nil => rfl
  | cons pc pr ih =>
    cases a with
    | nil => simp [isPre] at h
    | cons ac ar =>
      simp only [isPre, List.cons_append, Bool.and_eq_true] at h ⊢
      exact ⟨h.1, ih ar h.2⟩

theorem allTmpl_pref : ∀ e ∈ cascadeSpec, ∀ (input : Str) (m : Caps),
    isPre (("docker").toList) (e.tmpl input m) = true := by
  intro e he input m
  fin_cases he <;>
    simp only [tmplListContainers, tmplWhichRunning, tmplStart, tmplStop,
      tmplRestart, tmplRemove, tmplInspect, tmplLogs, tmplExec, tmplListImages,
      tmplPull, tmplPush, tmplBuild, tmplRmi, tmplTag, tmplListVolumes,
      tmplCreateVolume, tmplRemoveVolume, tmplInspectVolume, tmplListNetworks,
      tmplCreateNetwork, tmplRemoveNetwork, tmplConnect, tmplDisconnect,
      tmplSystemInfo, tmplVersion, tmplStats, tmplDiskUsage, tmplPrune,
      tmplComposeUp, tmplComposeDown, tmplComposeLogs, tmplComposePs,
      tmplComposeRestart, tmplComposeBuild, tmplSearch, tmplCopy, tmplPort,
      tmplTop, tmplLogin, tmplLogout, serviceSuffix] <;>
    (repeat' split) <;>
    (repeat apply isPre_append_of) <;> decide

theorem firstEntry_pref (es : List PatEntry)
    (hall : ∀ e ∈ es, ∀ (input : Str) (m : Caps),
      isPre (("docker").toList) (e.tmpl input m) = true) :
    ∀ (input r : Str), firstEntry es input = some r →
      isPre (("docker").toList) r = true := by
  induction es with
  | nil => intro input r h; simp [firstEntry] at h
  | cons e es ih =>
    intro input r h
    simp only [firstEntry] at h
    cases hr : runEntry e input with
    | some v =>
      rw [hr] at h
      obtain ⟨m, _, hv⟩ := Option.map_eq_some'.mp hr
      cases h
      rw [← hv]
      exact hall e (List.mem_cons_self e es) input m
    | none =>
      rw [hr] at h
      exact ih (fun e' he' => hall e' (List.mem_cons_of_mem e he')) input r h

/-- C1: for every input string, `parseDockerCommand` (the source translation,
whose branches test with one regex and re-match with a second, extracting
regex) coincides with the reference definition
`parseDockerCommandCascadeSpec`, which walks the fixed ordered list
`cascadeSpec` of pattern/template pairs over the lowercased, trimmed input and
returns the command synthesized from the first pattern that matches; once an
entry matches, the walk commits to it, so no later pattern in the cascade
influences the result. -/
theorem parseDockerCommand_matches_cascade_spec :
    ∀ s : Str, parseDockerCommand s = parseDockerCommandCascadeSpec s := by
  intro s
  simp only [parseDockerCommand, parseDockerCommandCascadeSpec]
  rw [cascade_eq]

/-- C2 (code bug): the cascade drops the container name.  "stop container db"
is translated to "docker stop undefined" (the extracting regex has only two
capture groups, but the source reads `match[3]`), "remove container db" to
"docker rm undefined", and "restart container db" is captured by the earlier
start/run/launch pattern (the word "restart" contains "start") yielding
"docker start db" — while the in-repo help resource documents
"stop container myapp" → `docker stop myapp`,
"restart container web" → `docker restart web`, and
"remove container old-app" → `docker rm old-app`. -/
theorem parseDockerCommand_drops_container_name :
    parseDockerCommandS ("stop container db") = ("docker stop undefined") ∧
    parseDockerCommandS ("remove container db") = ("docker rm undefined") ∧
    parseDockerCommandS ("restart container db") = ("docker start db") := by
  refine ⟨?_, ?_, ?_⟩ <;> decide

/-- C9: `parseDockerCommand` is total (a Lean function) and every string it
returns begins with "docker" — via a matched template, via pass-through of an
input already starting with "docker", or via the final fallback that prefixes
"docker ". -/
theorem parseDockerCommand_total_docker_prefixed :
    ∀ s : Str, isPre (("docker").toList) (parseDockerCommand s) = true := by
  intro s
  simp only [parseDockerCommand]
  rw [cascade_eq]
  cases hf : firstEntry cascadeSpec (trimStr (lowerStr s)) with
  | some r =>
    simp only [hf]
    exact firstEntry_pref cascadeSpec allTmpl_pref _ r hf
  | none =>
    simp only [hf]
    unfold pdcFallback
    split
    · next h1 => exact h1
    · split
      · decide
      · exact isPre_append_of _ _ _ (by decide)

end DockerMCP

namespace DockerMCP

/- === ProjectManager (src/src/index.ts 40-87). === -/

/-- `ProjectManager.getProjectLabel`. -/
def getProjectLabel (projectName : Str) : Str :=
  ("mcp-server-docker.project=").toList ++ projectName

/-- JS `s.replace(re, repl)` for a non-global regex: replace the leftmost
match, where the replacement may use the captures. -/
def jsReplace (re : RE) (repl : Caps → Str) (s : Str) : Str :=
  match searchSplit re s with
  | some (pre, _, post, m) => pre ++ repl m ++ post
  | none => s

/-- `(docker (?:run|create))` -/
def reRunCreate : RE :=
  .grp 1 (.cat (lit ("docker ")) (altL [lit ("run"), lit ("create")]))

/-- `(docker network create)` -/
def reNetworkCreate : RE := .grp 1 (lit ("docker network create"))

/-- `(docker volume create)` -/
def reVolumeCreate : RE := .grp 1 (lit ("docker volume create"))

/-- The replacement template `$1 --label "<label>"` ($1 of an unmatched group
renders as the empty string in a JS replacement). -/
def labelRepl (label : Str) (m : Caps) : Str :=
  ((getCap m 1).getD []) ++ (" --label \"").toList ++ label ++ ("\"").toList

/-- `ProjectManager.addProjectLabel` (67-86): three guarded first-match
replacements, tried in source order; otherwise the command is unchanged. -/
def addProjectLabel (command projectName : Str) : Str :=
  let label := getProjectLabel projectName
  if containsSub command (("docker run").toList) ||
      containsSub command (("docker create").toList) then
    jsReplace reRunCreate (labelRepl label) command
  else if containsSub command (("docker network create").toList) then
    jsReplace reNetworkCreate (labelRepl label) command
  else if containsSub command (("docker volume create").toList) then
    jsReplace reVolumeCreate (labelRepl label) command
  else command

/-- Scan left to right; at the first position where one of `subs` starts,
insert `ins` right after that occurrence (`none` when no occurrence). -/
def scanInsert (subs : List Str) (ins : Str) (s : Str) : Option Str :=
  match subs.find? (fun l => isPre l s) with
  | some l => some (l ++ ins ++ s.drop l.length)
  | none =>
    match s with
    | [] => none
    | c :: r => (scanInsert subs ins r).map (fun t => c :: t)

/-- The inserted flag text ` --label "<label>"`. -/
def labelIns (label : Str) : Str :=
  (" --label \"").toList ++ label ++ ("\"").toList

/-- Claim C10 as stated: the label is inserted immediately after the first
occurrence (in string position order) of any of "docker run",
"docker create", "docker network create", "docker volume create"; the command
is unchanged when none occurs. -/
def addProjectLabelClaim (command projectName : Str) : Str :=
  (scanInsert
    [("docker run").toList, ("docker create").toList,
     ("docker network create").toList, ("docker volume create").toList]
    (labelIns (getProjectLabel projectName)) command).getD command

/-- Amended behaviour: the run/create branch takes priority over the
network-create branch, which takes priority over the volume-create branch,
regardless of the positions of the occurrences; within the chosen branch the
label goes right after the first occurrence of that branch's substrings. -/
def addProjectLabelAmended (command projectName : Str) : Str :=
  let ins := labelIns (getProjectLabel projectName)
  if containsSub command (("docker run").toList) ||
      containsSub command (("docker create").toList) then
    (scanInsert [("docker run").toList, ("docker create").toList] ins command).getD command
  else if containsSub command (("docker network create").toList) then
    (scanInsert [("docker network create").toList] ins command).getD command
  else if containsSub command (("docker volume create").toList) then
    (scanInsert [("docker volume create").toList] ins command).getD command
  else command

end DockerMCP


namespace DockerMCP

theorem isPre_append_iff (a b s : Str) :
    isPre (a ++ b) s = (isPre a s && isPre b (s.drop a.length)) := by
  induction a generalizing s with
  | nil => simp [isPre]
  | cons ac ar ih =>
    cases s with
    | nil => simp [isPre]
    | cons c cs => simp [isPre, ih, Bool.and_assoc]

theorem length_le_of_isPre (p s : Str) (h : isPre p s = true) :
    p.length ≤ s.length := by
  induction p generalizing s with
  | nil => simp
  | cons pc pr ih =>
    cases s with
    | nil => simp [isPre] at h
    | cons c cs =>
      simp only [isPre, Bool.and_eq_true] at h
      simpa using ih cs h.2

theorem take_of_isPre (p s : Str) (h : isPre p s = true) :
    s.take p.length = p := by
  induction p generalizing s with
  | nil => simp
  | cons pc pr ih =>
    cases s with
    | nil => simp [isPre] at h
    | cons c cs =>
      simp only [isPre, Bool.and_eq_true, decide_eq_true_eq] at h
      simp [List.take, h.1, ih cs h.2]

theorem take_sub_drop (s : Str) (n : ℕ) (h : n ≤ s.length) :
    s.take (s.length - (s.drop n).length) = s.take n := by
  rw [List.length_drop, Nat.sub_sub_self h]

theorem matchHere_grp_str (l s : Str) :
    matchHere (.grp 1 (.str l)) s =
      if isPre l s then some (s.drop l.length, [(1, l)]) else none := by
  by_cases h : isPre l s
  · simp only [matchHere, mrun, h, if_pos]
    rw [take_sub_drop s l.length (length_le_of_isPre l s h), take_of_isPre l s h]
  · simp [matchHere, mrun, h]

theorem matchHere_grp_cat_alt (a b c s : Str) :
    matchHere (.grp 1 (.cat (.str a) (.alt (.str b) (.str c)))) s =
      if isPre (a ++ b) s then some (s.drop (a ++ b).length, [(1, a ++ b)])
      else if isPre (a ++ c) s then some (s.drop (a ++ c).length, [(1, a ++ c)])
      else none := by
  have hdb : (s.drop a.length).drop b.length = s.drop (a ++ b).length := by
    rw [List.drop_drop, List.length_append, Nat.add_comm]
  have hdc : (s.drop a.length).drop c.length = s.drop (a ++ c).length := by
    rw [List.drop_drop, List.length_append, Nat.add_comm]
  by_cases ha : isPre a s
  · by_cases hb : isPre b (s.drop a.length)
    · have hab : isPre (a ++ b) s = true := by simp [isPre_append_iff, ha, hb]
      simp only [matchHere, mrun, ha, hb, hab, hdb, if_pos, if_true]
      rw [take_sub_drop s (a ++ b).length (length_le_of_isPre _ s hab),
        take_of_isPre _ s hab]
    · have hnab : isPre (a ++ b) s = false := by simp [isPre_append_iff, hb]
      by_cases hc : isPre c (s.drop a.length)
      · have hac : isPre (a ++ c) s = true := by simp [isPre_append_iff, ha, hc]
        simp only [matchHere, mrun, ha, hb, hc, hac, hnab, hdc, if_pos, if_true,
          if_false, Bool.false_eq_true]
        rw [take_sub_drop s (a ++ c).length (length_le_of_isPre _ s hac),
          take_of_isPre _ s hac]
      · have hnac : isPre (a ++ c) s = false := by simp [isPre_append_iff, hc]
        simp [matchHere, mrun, ha, hb, hc, hnab, hnac]
  · have hnab : isPre (a ++ b) s = false := by simp [isPre_append_iff, ha]
    have hnac : isPre (a ++ c) s = false := by simp [isPre_append_iff, ha]
    simp [matchHere, mrun, ha, hnab, hnac]

theorem matchHere_runCreate (s : Str) :
    matchHere reRunCreate s =
      match [("docker run").toList, ("docker create").toList].find?
          (fun l => isPre l s) with
      | some l => some (s.drop l.length, [(1, l)])
      | none => none := by
  have h := matchHere_grp_cat_alt (("docker ").toList) (("run").toList)
    (("create").toList) s
  rw [show (("docker ").toList ++ ("run").toList : Str) = ("docker run").toList
      from by decide,
    show (("docker ").toList ++ ("create").toList : Str) = ("docker create").toList
      from by decide] at h
  rw [show reRunCreate = .grp 1 (.cat (.str ("docker ").toList)
      (.alt (.str ("run").toList) (.str ("create").toList))) from rfl]
  rw [h]
  simp only [List.find?]
  cases hr : isPre (("docker run").toList) s <;>
    cases hc : isPre (("docker create").toList) s <;> simp [hr, hc]

end DockerMCP

namespace DockerMCP

theorem searchSplitAux_scanInsert (re : RE) (subs : List Str) (ins : Str)
    (hm : ∀ s, matchHere re s =
      match subs.find? (fun l => isPre l s) with
      | some l => some (s.drop l.length, [(1, l)])
      | none => none) :
    ∀ (s acc : Str),
      (match searchSplitAux re acc s with
       | some (pre, _, post, m) =>
           some (pre ++ (((getCap m 1).getD []) ++ ins) ++ post)
       | none => (none : Option Str))
      = (scanInsert subs ins s).map (fun t => acc.reverse ++ t) := by
  intro s
  induction s with
  | nil =>
    intro acc
    cases hf : subs.find? (fun l => isPre l ([] : Str)) with
    | some l =>
      have := hm []
      rw [hf] at this
      simp only [searchSplitAux, this, scanInsert, hf]
      simp [getCap, List.append_assoc]
    | none =>
      have := hm []
      rw [hf] at this
      simp [searchSplitAux, this, scanInsert, hf]
  | cons c r ih =>
    intro acc
    cases hf : subs.find? (fun l => isPre l (c :: r)) with
    | some l =>
      have := hm (c :: r)
      rw [hf] at this
      simp only [searchSplitAux, this, scanInsert, hf]
      simp [getCap, List.append_assoc]
    | none =>
      have := hm (c :: r)
      rw [hf] at this
      simp only [searchSplitAux, this, scanInsert, hf]
      rw [ih (c :: acc)]
      cases hsc : scanInsert subs ins r with
      | none => simp
      | some t => simp [List.append_assoc]

theorem jsReplace_scanInsert (re : RE) (subs : List Str) (ins : Str)
    (hm : ∀ s, matchHere re s =
      match subs.find? (fun l => isPre l s) with
      | some l => some (s.drop l.length, [(1, l)])
      | none => none) (s : Str) :
    jsReplace re (fun m => ((getCap m 1).getD []) ++ ins) s =
      (scanInsert subs ins s).getD s := by
  have := searchSplitAux_scanInsert re subs ins hm s []
  simp only [List.reverse_nil, List.nil_append] at this
  unfold jsReplace searchSplit
  cases hx : searchSplitAux re [] s with
  | some v =>
    obtain ⟨pre, mt, post, m⟩ := v
    rw [hx] at this
    cases hsc : scanInsert subs ins s with
    | none => rw [hsc] at this; simp at this
    | some t =>
      rw [hsc] at this
      have h2 := Option.some.inj this
      simp only [Option.getD_some]
      exact h2
  | none =>
    rw [hx] at this
    cases hsc : scanInsert subs ins s with
    | none => simp [hsc]
    | some t => rw [hsc] at this; simp at this

end DockerMCP

namespace DockerMCP

theorem matchHere_single_sub (l : Str) (s : Str) :
    matchHere (.grp 1 (.str l)) s =
      match [l].find? (fun l' => isPre l' s) with
      | some l' => some (s.drop l'.length, [(1, l')])
      | none => none := by
  rw [matchHere_grp_str]
  simp only [List.find?]
  cases h : isPre l s <;> simp [h]

/-- C10 (amended): `addProjectLabel` checks its branches in fixed order —
when the command contains "docker run" or "docker create" anywhere, the label
is inserted right after the first occurrence of either of those two
substrings; otherwise, when it contains "docker network create", after its
first occurrence; otherwise, when it contains "docker volume create", after
its first occurrence; otherwise the command is returned unchanged.  The
equality with `addProjectLabelAmended` (prefix ++ occurrence ++ label flag ++
suffix) shows no other character is altered. -/
theorem addProjectLabel_eq_amended (command projectName : Str) :
    addProjectLabel command projectName = addProjectLabelAmended command projectName := by
  simp only [addProjectLabel, addProjectLabelAmended]
  have hrepl : labelRepl (getProjectLabel projectName) =
      (fun m => ((getCap m 1).getD []) ++ labelIns (getProjectLabel projectName)) := by
    funext m
    simp [labelRepl, labelIns, List.append_assoc]
  rw [hrepl]
  split_ifs with h1 h2 h3
  · exact jsReplace_scanInsert reRunCreate _ _ matchHere_runCreate command
  · exact jsReplace_scanInsert reNetworkCreate _ _
      (matchHere_single_sub (("docker network create").toList)) command
  · exact jsReplace_scanInsert reVolumeCreate _ _
      (matchHere_single_sub (("docker volume create").toList)) command
  · rfl

/-- C10 counterexample: on "docker network create net && docker run nginx"
the first of the four substrings to occur (at position 0) is
"docker network create", but the source inserts the label after
"docker run", because the run/create branch is checked first. -/
theorem addProjectLabel_position_counterexample :
    addProjectLabel (("docker network create net && docker run nginx").toList)
        (("p").toList) ≠
      addProjectLabelClaim (("docker network create net && docker run nginx").toList)
        (("p").toList) := by decide

end DockerMCP

namespace DockerMCP

/- === The external CLI and the tool handlers (src/src/index.ts 383-390 and
the server.registerTool blocks).  Each handler is a total function returning
its MCP response together with the trace of command lines passed to
`executeDockerCommand`; the behaviour of the external `docker` binary is an
oracle `Env`. === -/

/-- Outcome of handing one command line to the external CLI. -/
inductive ExecOut where
  | ok (stdout stderr : Str)
  | fail (msg : Str)
deriving DecidableEq

/-- The external container-management CLI as an oracle. -/
def Env := Str → ExecOut

/-- `executeDockerCommand` (383-390): run the line; on failure rethrow
`Docker command failed: <message>`. -/
def executeDockerCommand (env : Env) (command : Str) : Except Str (Str × Str) :=
  match env command with
  | .ok out err => .ok (out, err)
  | .fail msg => .error ((("Docker command failed: ").toList) ++ msg)

/-- An MCP tool response: its text blocks and its isError flag (an absent
flag is `false`). -/
structure ToolResp where
  content : List Str
  isError : Bool
deriving DecidableEq

/-- JS truthiness of an optional boolean argument. -/
def jsTruthyB (o : Option Bool) : Bool := o = some true

/-- The common shape of the command-wrapping tool handlers: compute the
command line (which may throw on a missing argument), execute it once, format
the output; any thrown error is caught and returned as an isError response
prefixed with the handler's catch message. -/
def wrapTool (env : Env) (catchPre : Str) (fmt : Str → Str × Str → Str)
    (plan : Except Str Str) : ToolResp × List Str :=
  match plan with
  | .error m => (⟨[catchPre ++ m], true⟩, [])
  | .ok cmd =>
    match executeDockerCommand env cmd with
    | .error m => (⟨[catchPre ++ m], true⟩, [cmd])
    | .ok r => (⟨[fmt cmd r], false⟩, [cmd])

/-- The `execute_docker_command` tool (1157-1195). -/
def executeDockerCommandTool (env : Env) (command : Str) : ToolResp × List Str :=
  wrapTool env (("Error executing Docker command: ").toList)
    (fun cmd r =>
      ("Executed: ").toList ++ cmd ++ ("\n\nOutput:\n").toList ++ r.1 ++
        (if r.2 ≠ [] then ("\nErrors:\n").toList ++ r.2 else []))
    (.ok (parseDockerCommand command))

/-- Actions of the `manage_containers` tool. -/
inductive MCAction where
  | list | start | stop | remove | restart
deriving DecidableEq

/-- The `${action}` interpolation for `manage_containers`. -/
def mcActionStr : MCAction → Str
  | .list => ("list").toList
  | .start => ("start").toList
  | .stop => ("stop").toList
  | .remove => ("remove").toList
  | .restart => ("restart").toList

/-- The command-synthesis switch of `manage_containers` (1209-1233). -/
def manageContainersPlan (action : MCAction) (container : Option Str)
    (all : Option Bool) : Except Str Str :=
  match action with
  | .list => .ok (if jsTruthyB all then ("docker ps -a").toList else ("docker ps").toList)
  | .start =>
    if jsTruthy container then .ok (("docker start ").toList ++ container.getD [])
    else .error (("Container name or ID is required for start action").toList)
  | .stop =>
    if jsTruthy container then .ok (("docker stop ").toList ++ container.getD [])
    else .error (("Container name or ID is required for stop action").toList)
  | .remove =>
    if jsTruthy container then .ok (("docker rm ").toList ++ container.getD [])
    else .error (("Container name or ID is required for remove action").toList)
  | .restart =>
    if jsTruthy container then .ok (("docker restart ").toList ++ container.getD [])
    else .error (("Container name or ID is required for restart action").toList)

/-- The `manage_containers` tool (1197-1257). -/
def manageContainers (env : Env) (action : MCAction) (container : Option Str)
    (all : Option Bool) : ToolResp × List Str :=
  wrapTool env (("Error managing containers: ").toList)
    (fun _ r =>
      ("Container ").toList ++ mcActionStr action ++ (" completed:\n\n").toList ++ r.1 ++
        (if r.2 ≠ [] then ("\nWarnings:\n").toList ++ r.2 else []))
    (manageContainersPlan action container all)

end DockerMCP

namespace DockerMCP

end DockerMCP

namespace DockerMCP

end DockerMCP

namespace DockerMCP

/- === RemoteDockerManager (src/src/index.ts 320-348) and the test action of
the docker_remote_connection handler (794-805). === -/

/-- The process-wide host-endpoint state: the class field `currentHost` and
the environment variable `DOCKER_HOST`. -/
structure RemoteState where
  currentHost : Option Str
  envDockerHost : Option Str
deriving DecidableEq

/-- A fresh process: no override, no environment variable. -/
def initialRemoteState : RemoteState := ⟨none, none⟩

/-- `RemoteDockerManager.setDockerHost` (324-327): sets both the field and
the environment variable. -/
def setDockerHost (_st : RemoteState) (host : Str) : RemoteState :=
  ⟨some host, some host⟩

/-- `RemoteDockerManager.getDockerHost` (329-331):
`this.currentHost || process.env.DOCKER_HOST || null` (the empty string is
falsy). -/
def getDockerHost (st : RemoteState) : Option Str :=
  if jsTruthy st.currentHost then st.currentHost
  else if jsTruthy st.envDockerHost then st.envDockerHost
  else none

/-- A service of a compose project (interface ServiceConfig, 25-31). -/
structure ServiceConfig where
  image : Str
  ports : Option (List Str)
  environment : Option (List (Str × Str))
  volumes : Option (List Str)
  depends_on : Option (List Str)
deriving DecidableEq

/-- A compose project (interface ComposeProject, 33-38); services, networks
and volumes are insertion-ordered key/value records (only the keys of
networks and volumes are ever used). -/
structure ComposeProject where
  name : Str
  services : List (Str × ServiceConfig)
  networks : List Str
  volumes : List Str
deriving DecidableEq

/-- JS object property update / `Map.set`: overwrite the existing key or
append a new one. -/
def alSet {β : Type} : List (Str × β) → Str → β → List (Str × β)
  | [], k, v => [(k, v)]
  | (k', v') :: t, k, v =>
    if k' = k then (k, v) :: t else (k', v') :: alSet t k v

/-- JS object property read / `Map.get`. -/
def alGet {β : Type} : List (Str × β) → Str → Option β
  | [], _ => none
  | (k', v') :: t, k => if k' = k then some v' else alGet t k

theorem alGet_alSet_self {β : Type} (m : List (Str × β)) (k : Str) (v : β) :
    alGet (alSet m k v) k = some v := by
  induction m with
  | nil => simp [alSet, alGet]
  | cons kv t ih =>
    by_cases h : kv.1 = k
    · simp [alSet, alGet, h]
    · simp [alSet, alGet, h, ih]

theorem alGet_alSet_ne {β : Type} (m : List (Str × β)) (k k' : Str) (v : β)
    (h : k ≠ k') : alGet (alSet m k' v) k = alGet m k := by
  have h' : ¬(k' = k) := fun hh => h hh.symm
  induction m with
  | nil => simp [alSet, alGet, h']
  | cons kv t ih =>
    obtain ⟨k0, v0⟩ := kv
    by_cases hk : k0 = k'
    · have hk2 : ¬(k0 = k) := by rw [hk]; exact h'
      simp [alSet, alGet, hk, h', hk2]
    · by_cases hk2 : k0 = k <;> simp [alSet, alGet, hk, hk2, ih, h]

/-- The wordpress service literal (101-111). -/
def wordpressCfg : ServiceConfig :=
  ⟨("wordpress:latest").toList, some [("9000:80").toList],
   some [((("WORDPRESS_DB_HOST").toList), (("mysql").toList)),
         ((("WORDPRESS_DB_USER").toList), (("wordpress").toList)),
         ((("WORDPRESS_DB_PASSWORD").toList), (("wordpress").toList)),
         ((("WORDPRESS_DB_NAME").toList), (("wordpress").toList))],
   none, some [("mysql").toList]⟩

/-- The mysql service literal (113-122). -/
def mysqlCfg : ServiceConfig :=
  ⟨("mysql:8.0").toList, none,
   some [((("MYSQL_DATABASE").toList), (("wordpress").toList)),
         ((("MYSQL_USER").toList), (("wordpress").toList)),
         ((("MYSQL_PASSWORD").toList), (("wordpress").toList)),
         ((("MYSQL_ROOT_PASSWORD").toList), (("rootpassword").toList))],
   some [("mysql-data:/var/lib/mysql").toList], none⟩

/-- The postgres service literal (143-151). -/
def postgresCfg : ServiceConfig :=
  ⟨("postgres:15").toList, none,
   some [((("POSTGRES_DB").toList), (("myapp").toList)),
         ((("POSTGRES_USER").toList), (("user").toList)),
         ((("POSTGRES_PASSWORD").toList), (("password").toList))],
   some [("postgres-data:/var/lib/postgresql/data").toList], none⟩

/-- `port\s+(\d+)` -/
def rePortNum : RE := .cat (lit ("port")) (.cat wsP (.grp 1 (.plus digC)))

/-- The nginx port: `description.match(/port\s+(\d+)/)?.[1] || '80'`. -/
def nginxPort (description : Str) : Str :=
  jsOrOpt ((jsMatch rePortNum description).bind (fun m => getCap m 1)) (("80").toList)

/-- `DockerComposeManager.parseNaturalLanguage` (93-157); the description is
used as given (not lowercased). -/
def parseNaturalLanguage (description projectName : Str) : ComposeProject :=
  let s1 :=
    if containsSub description (("wordpress").toList) ||
        containsSub description (("wp").toList) then
      alSet (alSet [] (("wordpress").toList) wordpressCfg) (("mysql").toList) mysqlCfg
    else []
  let v1 :=
    if containsSub description (("wordpress").toList) ||
        containsSub description (("wp").toList) then
      [("mysql-data").toList]
    else []
  let s2 :=
    if containsSub description (("nginx").toList) then
      alSet s1 (("nginx").toList)
        ⟨("nginx:latest").toList,
         some [nginxPort description ++ ((":80").toList)], none, none, none⟩
    else s1
  let s3 :=
    if containsSub description (("redis").toList) then
      alSet s2 (("redis").toList)
        ⟨("redis:alpine").toList, some [("6379:6379").toList], none, none, none⟩
    else s2
  let s4 :=
    if containsSub description (("postgres").toList) then
      alSet s3 (("postgres").toList) postgresCfg
    else s3
  let v2 :=
    if containsSub description (("postgres").toList) then
      v1 ++ [("postgres-data").toList]
    else v1
  ⟨projectName, s4, [], v2⟩

end DockerMCP

namespace DockerMCP

/-- JS `String.prototype.split(':')`. -/
def splitOnColon : Str → List Str
  | [] => [[]]
  | c :: r =>
    if c = ':' then [] :: splitOnColon r
    else
      match splitOnColon r with
      | [] => [[c]]
      | p :: ps => (c :: p) :: ps

/-- `results.join('\n')`. -/
def joinNl : List Str → Str
  | [] => []
  | [x] => x
  | x :: xs => x ++ ("\n").toList ++ joinNl xs

/-- The `docker run` line built for one service by `applyPlan` (227-264):
flags in source order; a volume containing a colon gets the project-prefixed
volume name (the first two parts of the split). -/
def buildRunCmd (projectName serviceName : Str) (config : ServiceConfig)
    (multi : Bool) : Str :=
  ("docker run -d --name ").toList ++ projectName ++ ("-").toList ++ serviceName ++
    ((config.ports.getD []).map (fun port => (" -p ").toList ++ port)).flatten ++
    ((config.environment.getD []).map (fun kv =>
      (" -e ").toList ++ kv.1 ++ ("=").toList ++ kv.2)).flatten ++
    ((config.volumes.getD []).map (fun volume =>
      if containsSub volume ((":").toList) then
        (" -v ").toList ++ projectName ++ ("-").toList ++
          ((splitOnColon volume).headD []) ++ (":").toList ++
          (((splitOnColon volume).drop 1).headD [])
      else (" -v ").toList ++ volume)).flatten ++
    (if multi then (" --network ").toList ++ projectName ++ ("-network").toList else []) ++
    (" ").toList ++ config.image

/-- The commands planned by `applyPlan` (209-269) in execution order, each
with its success message: the project network (when more than one service),
then the volumes, then one labelled `docker run` per service. -/
def applyPlanned (projectName : Str) (p : ComposeProject) : List (Str × Str) :=
  (if p.services.length > 1 then
    [(addProjectLabel (("docker network create ").toList ++ projectName ++
        ("-network").toList) projectName,
      ("✅ Created network ").toList ++ projectName ++ ("-network").toList)]
   else []) ++
  p.volumes.map (fun volumeName =>
    (addProjectLabel (("docker volume create ").toList ++ projectName ++
        ("-").toList ++ volumeName) projectName,
     ("✅ Created volume ").toList ++ projectName ++ ("-").toList ++ volumeName)) ++
  p.services.map (fun sc =>
    (addProjectLabel
      (buildRunCmd projectName sc.1 sc.2 (p.services.length > 1)) projectName,
     ("✅ Created and started container ").toList ++ projectName ++ ("-").toList ++ sc.1))

/-- Run the planned commands in order, stopping at the first failure
(`await` throws); returns the collected success messages or the error, and
the trace of commands actually executed. -/
def runPlanned (env : Env) : List (Str × Str) → Except Str (List Str) × List Str
  | [] => (.ok [], [])
  | (cmd, msg) :: rest =>
    match executeDockerCommand env cmd with
    | .error e => (.error e, [cmd])
    | .ok _ =>
      let r := runPlanned env rest
      (r.1.map (fun msgs => msg :: msgs), cmd :: r.2)

/-- `DockerComposeManager.applyPlan` applied to a known project `p`
(209-274): the catch rethrows `Failed to apply plan: <message>`. -/
def applyPlanOn (env : Env) (projectName : Str) (p : ComposeProject) :
    Except Str Str × List Str :=
  match runPlanned env (applyPlanned projectName p) with
  | (.error e, tr) => (.error ((("Failed to apply plan: ").toList) ++ e), tr)
  | (.ok msgs, tr) =>
    (.ok (("## Apply Complete\n\n").toList ++ joinNl msgs ++
      ("\n\nProject ").toList ++ projectName ++
      (" has been successfully deployed!").toList), tr)

/-- The in-memory `projects` map of `DockerComposeManager`. -/
def ProjectsMap := List (Str × ComposeProject)

/-- `DockerComposeManager.setProject` (315-317). -/
def setProject (projects : ProjectsMap) (projectName : Str) (p : ComposeProject) :
    ProjectsMap :=
  alSet projects projectName p

/-- `DockerComposeManager.applyPlan` (201-275): look the project up; throw
`No plan found for project <name>` when absent. -/
def applyPlan (env : Env) (projects : ProjectsMap) (projectName : Str) :
    Except Str Str × List Str :=
  match alGet projects projectName with
  | none => (.error ((("No plan found for project ").toList) ++ projectName), [])
  | some p => applyPlanOn env projectName p

/-- The response assembly of the `docker_compose_advanced` "apply" action for
a known project: success returns the apply summary, an error is caught and
prefixed (1143-1153); the projects map is not modified. -/
def composeAdvApplyOn (env : Env) (projectName : Str) (p : ComposeProject)
    (projects : ProjectsMap) : ToolResp × List Str × ProjectsMap :=
  match applyPlanOn env projectName p with
  | (.ok msg, tr) => (⟨[msg], false⟩, tr, projects)
  | (.error e, tr) =>
    (⟨[("Error with Docker Compose operation: ").toList ++ e], true⟩, tr, projects)

/-- The "apply" action of the `docker_compose_advanced` handler (1110-1119):
the `No plan found` throw is caught by the handler's catch and surfaced with
the handler's prefix; no command runs and the projects map is unchanged. -/
def composeAdvApply (env : Env) (projects : ProjectsMap) (projectName : Str) :
    ToolResp × List Str × ProjectsMap :=
  match alGet projects projectName with
  | none =>
    (⟨[("Error with Docker Compose operation: No plan found for project ").toList ++
        projectName], true⟩, [], projects)
  | some p => composeAdvApplyOn env projectName p projects

end DockerMCP

namespace DockerMCP

/-- An environment in which every external invocation fails. -/
def envBoom : Env := fun _ => .fail (("boom").toList)

/-- C3: a manage_containers request whose action is start, stop, remove or
restart (anything but list) with no container argument returns an isError
response naming the missing argument for that action, and executes no
external command (the trace is empty), for every environment. -/
theorem manageContainers_missing_container (env : Env) (action : MCAction)
    (all : Option Bool) (h : action ≠ MCAction.list) :
    manageContainers env action none all =
      (⟨[("Error managing containers: Container name or ID is required for ").toList ++
          mcActionStr action ++ (" action").toList], true⟩, []) := by
  cases action
  · exact absurd rfl h
  · rfl
  · rfl
  · rfl
  · rfl

/-- Witness for C3 at action = stop. -/
theorem manageContainers_missing_container_w :
    MCAction.stop ≠ MCAction.list ∧
    manageContainers envBoom MCAction.stop none none =
      (⟨[("Error managing containers: Container name or ID is required for ").toList ++
          mcActionStr MCAction.stop ++ (" action").toList], true⟩, []) :=
  ⟨by decide, manageContainers_missing_container envBoom MCAction.stop none (by decide)⟩

/-- C5: when the external invocation succeeds, execute_docker_command
returns a single text block holding the synthesized command line, the
captured stdout verbatim, and — exactly when stderr is non-empty — the
captured stderr; and the command was executed once. -/
theorem executeDockerCommandTool_success (env : Env) (s out err : Str)
    (h : env (parseDockerCommand s) = .ok out err) :
    executeDockerCommandTool env s =
      (⟨[("Executed: ").toList ++ parseDockerCommand s ++ ("\n\nOutput:\n").toList ++
          out ++ (if err ≠ [] then ("\nErrors:\n").toList ++ err else [])], false⟩,
       [parseDockerCommand s]) := by
  simp [executeDockerCommandTool, wrapTool, executeDockerCommand, h]

/-- An environment where `docker ps -a` succeeds with a warning on stderr. -/
def envC5 : Env := fun c =>
  if c = ("docker ps -a").toList then .ok (("CONTAINERS\n").toList) (("warn").toList)
  else .fail (("boom").toList)

/-- Witness for C5 on "list all containers". -/
theorem executeDockerCommandTool_success_w :
    envC5 (parseDockerCommand (("list all containers").toList)) =
      .ok (("CONTAINERS\n").toList) (("warn").toList) ∧
    executeDockerCommandTool envC5 (("list all containers").toList) =
      (⟨[("Executed: ").toList ++ parseDockerCommand (("list all containers").toList) ++
          ("\n\nOutput:\n").toList ++ ("CONTAINERS\n").toList ++
          (if (("warn").toList : Str) ≠ [] then ("\nErrors:\n").toList ++ ("warn").toList
           else [])], false⟩,
       [parseDockerCommand (("list all containers").toList)]) :=
  ⟨by decide,
   executeDockerCommandTool_success envC5 (("list all containers").toList)
     (("CONTAINERS\n").toList) (("warn").toList) (by decide)⟩

end DockerMCP

namespace DockerMCP

/-- C6: a docker_compose_advanced "apply" for a project name with no stored
plan returns an isError response whose message is the handler prefix plus
"No plan found for project <name>", executes no external command, and leaves
the projects map unchanged; and after setProject(name, p) the apply action
dispatches to the computation on p — the most recently stored plan for that
name — with the map again unchanged. -/
theorem composeAdvanced_apply_lookup (env : Env) (projects : ProjectsMap)
    (projectName : Str) (p : ComposeProject) :
    (alGet projects projectName = none →
      composeAdvApply env projects projectName =
        (⟨[("Error with Docker Compose operation: No plan found for project ").toList ++
            projectName], true⟩, [], projects)) ∧
    composeAdvApply env (setProject projects projectName p) projectName =
      composeAdvApplyOn env projectName p (setProject projects projectName p) := by
  constructor
  · intro h
    simp [composeAdvApply, h]
  · simp [composeAdvApply, setProject, alGet_alSet_self]

/-- One-service example project. -/
def pEx : ComposeProject :=
  ⟨("web").toList,
   [((("nginx").toList), ⟨("nginx:latest").toList, none, none, none, none⟩)], [], []⟩

/-- Witness for C6 on the empty projects map and project name "web". -/
theorem composeAdvanced_apply_lookup_w :
    alGet ([] : ProjectsMap) (("web").toList) = none ∧
    composeAdvApply envBoom ([] : ProjectsMap) (("web").toList) =
      (⟨[("Error with Docker Compose operation: No plan found for project ").toList ++
          (("web").toList)], true⟩, [], ([] : ProjectsMap)) ∧
    composeAdvApply envBoom (setProject ([] : ProjectsMap) (("web").toList) pEx)
        (("web").toList) =
      composeAdvApplyOn envBoom (("web").toList) pEx
        (setProject ([] : ProjectsMap) (("web").toList) pEx) :=
  ⟨rfl,
   (composeAdvanced_apply_lookup envBoom [] (("web").toList) pEx).1 rfl,
   (composeAdvanced_apply_lookup envBoom [] (("web").toList) pEx).2⟩

/-- C7 (amended): the host override is last-write-wins for every non-empty
host string — after setDockerHost(h1) then setDockerHost(h2) with h2 ≠ "",
getDockerHost() returns h2; an empty written host is falsy and the read
falls through to null. -/
theorem setDockerHost_last_write_wins (st : RemoteState) (h1 h2 : Str)
    (hne : h2 ≠ []) :
    getDockerHost (setDockerHost (setDockerHost st h1) h2) = some h2 := by
  simp [setDockerHost, getDockerHost, jsTruthy, hne]

/-- Witness for C7 with h1 = "a", h2 = "tcp://b". -/
theorem setDockerHost_last_write_wins_w :
    ((("tcp://b").toList : Str) ≠ []) ∧
    getDockerHost (setDockerHost (setDockerHost initialRemoteState (("a").toList))
        (("tcp://b").toList)) = some (("tcp://b").toList) :=
  ⟨by decide,
   setDockerHost_last_write_wins initialRemoteState (("a").toList)
     (("tcp://b").toList) (by decide)⟩

/-- C7 counterexample: writing the empty string as the second host makes
getDockerHost() return null (the empty string is falsy in both reads), not
the most recently written value — so "for every pair of host strings the
value read is the last written" fails at h2 = "". -/
theorem getDockerHost_empty_write :
    getDockerHost (setDockerHost (setDockerHost initialRemoteState
        (("tcp://a").toList)) []) = none ∧
    ¬(getDockerHost (setDockerHost (setDockerHost initialRemoteState
        (("tcp://a").toList)) []) = some []) := by
  refine ⟨?_, ?_⟩ <;> decide

/-- C8: for every description containing "nginx", parseNaturalLanguage
produces a service record named nginx with image nginx:latest and exactly one
port mapping p:80, where p is the capture of the first `port\s+(\d+)` match
in the description or "80" when there is none (nginxPort). -/
theorem parseNaturalLanguage_nginx_service (d pn : Str)
    (h : containsSub d (("nginx").toList) = true) :
    alGet (parseNaturalLanguage d pn).services (("nginx").toList) =
      some ⟨("nginx:latest").toList, some [nginxPort d ++ ((":80").toList)],
        none, none, none⟩ := by
  simp only [parseNaturalLanguage, h]
  cases hpg : containsSub d (("postgres").toList) <;>
    cases hr : containsSub d (("redis").toList) <;>
      simp only [hpg, hr, if_true, if_false, Bool.false_eq_true, ite_true, ite_false] <;>
      (repeat' first
        | rw [alGet_alSet_self]
        | rw [alGet_alSet_ne _ _ _ _ (by decide)])

/-- Witness for C8 on "nginx on port 8080". -/
theorem parseNaturalLanguage_nginx_service_w :
    containsSub (("nginx on port 8080").toList) (("nginx").toList) = true ∧
    alGet (parseNaturalLanguage (("nginx on port 8080").toList) (("p1").toList)).services
        (("nginx").toList) =
      some ⟨("nginx:latest").toList,
        some [nginxPort (("nginx on port 8080").toList) ++ ((":80").toList)],
        none, none, none⟩ :=
  ⟨by decide,
   parseNaturalLanguage_nginx_service (("nginx on port 8080").toList) (("p1").toList)
     (by decide)⟩

end DockerMCP
